import Mathlib

/-!
Verification of the REST facade in `src/server.js`.

The file shallowly embeds the Express server: JavaScript values appearing in
request bodies and responses are modelled by `JVal`; the wrapped
whatsapp-web.js client, its chats and its messages are modelled as records of
oracles returning `Except Err _` (a thrown exception is an `.error`); every
request handler is translated into a Lean function that returns the HTTP
response together with the trace of wrapped-library calls it performed, each
trace entry recording whether that call threw.  The process-wide state
(readiness flag, current client handle) is the structure `SState`, updated by
the lifecycle-event callbacks (`onEvent`) and by the route dispatch (`serve`).
-/

set_option maxHeartbeats 1000000
set_option linter.unreachableTactic false
set_option linter.unusedTactic false
set_option linter.unnecessarySeqFocus false

namespace Server

/-- Model of a JavaScript value as it occurs in a JSON request body or
response.  `undefined` models the JavaScript value `undefined` (in particular the
result of reading an absent body field); numbers are modelled as integers. -/
inductive JVal where
  | undefined
  | null
  | bool (b : Bool)
  | num (n : Int)
  | str (s : String)
  | arr (elems : List JVal)
  | obj (fields : List (String × JVal))

/-- A request body: the parsed JSON object, as an association list. -/
abbrev Body := List (String × JVal)

/-- Reading a field off the request body object: a missing key yields the
JavaScript value `undefined`. -/
def bget (b : Body) (k : String) : JVal :=
  match b.find? (fun kv => kv.1 == k) with
  | some kv => kv.2
  | none => .undefined

/-- Destructuring with a default, as in `const { forEveryone = true } = req.body`:
the default applies exactly when the field is `undefined`. -/
def bgetD (b : Body) (k : String) (d : JVal) : JVal :=
  match bget b k with
  | .undefined => d
  | v => v

/-- JavaScript truthiness of a value (`!v` in the source is `!truthy v`). -/
def truthy : JVal → Bool
  | .undefined => false
  | .null => false
  | .bool b => b
  | .num n => n != 0
  | .str s => s != ""
  | .arr _ => true
  | .obj _ => true

/-- Model of `Array.isArray`. -/
def isArr : JVal → Bool
  | .arr _ => true
  | _ => false

/-- The element list of a value already validated with `Array.isArray`. -/
def getArr : JVal → List JVal
  | .arr xs => xs
  | _ => []

/-- JavaScript `a || b` on values. -/
def jor (a b : JVal) : JVal :=
  if truthy a then a else b

/-- An exception message thrown by the wrapped library or by the handler body. -/
abbrev Err := String

/-- Property access `v.k`, which throws a TypeError on `undefined`/`null`,
yields `undefined` on primitives, and looks the key up on objects. -/
def jprop (v : JVal) (k : String) : Except Err JVal :=
  match v with
  | .undefined => .error ("Cannot read properties of undefined reading " ++ k)
  | .null => .error ("Cannot read properties of null reading " ++ k)
  | .obj fs =>
      .ok (match fs.find? (fun kv => kv.1 == k) with
           | some kv => kv.2
           | none => .undefined)
  | _ => .ok .undefined

/-- The check `s.includes("@c.us")` — substring containment, from
`to.includes("@c.us")` in the source. -/
def includesCus (s : String) : Bool :=
  decide ("@c.us".data <:+: s.data)

/-- The chat-id normalization, the ternary appending "@c.us" unless already contained
(src/server.js line 101 and the identical lambdas at lines 209, 225, 330). -/
def normalizeChatId (s : String) : String :=
  if includesCus s then s else s ++ "@c.us"

/-- The same normalization applied to a raw body value: calling `.includes`
on a non-string throws a TypeError. -/
def normalizeJ : JVal → Except Err String
  | .str s => .ok (normalizeChatId s)
  | _ => .error "includes is not a function"

/-- The elementwise normalization of participant and mention arrays — the first
TypeError aborts the map, as in JavaScript. -/
def normalizeList : List JVal → Except Err (List String)
  | [] => .ok []
  | v :: vs =>
      match normalizeJ v with
      | .error e => .error e
      | .ok s =>
          match normalizeList vs with
          | .error e => .error e
          | .ok ss => .ok (s :: ss)

/-- An HTTP response: status code and JSON body. -/
structure Resp where
  status : Nat
  body : JVal

/-- An error response: `res.status(st).json(obj with an error field)`. -/
def jerr (st : Nat) (msg : String) : Resp :=
  ⟨st, .obj [("error", .str msg)]⟩

/-- A success response: `res.json(v)` (status 200). -/
def jok (v : JVal) : Resp :=
  ⟨200, v⟩

/-- The plain success response: `res.json(obj with success set to true)`. -/
def successResp : Resp :=
  jok (.obj [("success", .bool true)])

/-- The content argument of `client.sendMessage`. -/
inductive Content where
  | plain (v : JVal)
  | location (latitude longitude name address url : JVal)
  | buttonsC (body buttons title footer : JVal)
  | listC (body buttonText sections title footer : JVal)
  | pollC (question options pollOptions : JVal)
  | mediaC (mimetype dataB64 filename : String)

/-- The options argument of `client.sendMessage`. -/
inductive COpts where
  | noOpts
  | mediaOpts (caption sendMediaAsHd isViewOnce sendAudioAsVoice : JVal)
  | linkPreviewTrue

/-- The options argument of `chat.sendMessage`. -/
inductive ChatOpts where
  | mentionsOpt (mentions : List String)
  | groupMentionsOpt (groupMentions : JVal)

/-- The options object of the group-membership calls: `requesterIds` added
when truthy, `sleep` added when not strictly `undefined`. -/
structure MOpts where
  requesterIds : Option JVal
  sleep : Option JVal

/-- One wrapped-library call, with its arguments. -/
inductive Call where
  | sendMessage (chatId : String) (content : Content) (opts : COpts)
  | getMessageById (id : JVal)
  | getChatById (id : JVal)
  | acceptInvite (inviteCode : JVal)
  | createGroup (title : JVal) (participants : List String)
  | setStatus (status : JVal)
  | approveGroupMembershipRequests (chatId : JVal) (opts : MOpts)
  | rejectGroupMembershipRequests (chatId : JVal) (opts : MOpts)
  | getContactDeviceCount (contactId : String)
  | syncHistory (chatId : JVal)
  | getBroadcasts
  | setBackgroundSync (enabled : JVal)
  | getChats
  | getContacts
  | openChatWindowAt (messageId : JVal)
  | chatSetSubject (subject : JVal)
  | chatSetDescription (description : JVal)
  | chatLeave
  | chatAddParticipants (participants : List String)
  | chatSendMessage (message : JVal) (opts : ChatOpts)
  | chatPin
  | chatArchive
  | chatMute (duration : JVal)
  | chatSendStateTyping
  | chatSendStateRecording
  | chatClearState
  | chatChangeLabels (labelIds : List JVal)
  | chatGetLabels
  | chatFetchMessages (limitRaw : Option String)
  | msgReply (reply : JVal)
  | msgDelete (forEveryone : JVal)
  | msgEdit (newText : JVal)
  | msgReact (reaction : JVal)
  | msgPin (duration : JVal)
  | msgUnpin
  | msgDownloadMedia
  | msgGetQuotedMessage

/-- The trace of wrapped-library calls a handler performed, in order; each
entry records the thrown message when that call threw, `none` when it
returned normally. -/
abbrev Trace := List (Call × Option Err)

/-- A label object (only its `id` field is read). -/
structure Label where
  id : JVal

/-- The result of `client.sendMessage` (only `id._serialized` is read). -/
structure SentMsg where
  idSerialized : String

/-- Media returned by `message.downloadMedia`. -/
structure Media where
  mimetype : JVal
  filename : JVal
  data : String

/-- The plain fields read off a quoted message. -/
structure QMsg where
  idSerialized : String
  type : JVal
  author : JVal
  «from» : JVal
  timestamp : JVal
  hasMedia : JVal
  body : JVal

/-- The plain fields read off messages returned by `chat.fetchMessages`. -/
structure MsgData where
  idSerialized : String
  body : JVal
  type : JVal
  timestamp : JVal
  «from» : JVal
  «to» : JVal
  author : JVal
  fromMe : Bool
  hasMedia : Bool
  hasQuotedMsg : Bool

/-- A message object returned by `client.getMessageById`: its plain fields
plus one oracle per method, giving the library result (or thrown message)
of that call. -/
structure Msg where
  idSerialized : String
  body : JVal
  type : JVal
  timestamp : JVal
  «from» : JVal
  «to» : JVal
  author : JVal
  fromMe : Bool
  hasMedia : Bool
  hasQuotedMsg : Bool
  isForwarded : JVal
  isStatus : JVal
  isStarred : JVal
  broadcast : JVal
  reply : JVal → Except Err Unit
  delete : JVal → Except Err Unit
  edit : JVal → Except Err Unit
  react : JVal → Except Err Unit
  pin : JVal → Except Err JVal
  unpin : Except Err JVal
  downloadMedia : Except Err Media
  getQuotedMessage : Except Err QMsg

/-- A chat object returned by `client.getChatById` (or in `getChats`
results): its plain fields plus one oracle per method. -/
structure Chat where
  idSerialized : String
  name : JVal
  isGroup : Bool
  unreadCount : JVal
  timestamp : JVal
  isReadOnly : JVal
  archived : JVal
  pinned : JVal
  isMuted : JVal
  muteExpiration : JVal
  description : JVal
  createdAt : JVal
  owner : JVal
  participants : List JVal
  setSubject : JVal → Except Err Unit
  setDescription : JVal → Except Err Unit
  leave : Except Err Unit
  addParticipants : List String → Except Err JVal
  sendMessage : JVal → ChatOpts → Except Err Unit
  pin : Except Err Unit
  archive : Except Err Unit
  mute : JVal → Except Err Unit
  sendStateTyping : Except Err Unit
  sendStateRecording : Except Err Unit
  clearState : Except Err Unit
  changeLabels : List JVal → Except Err Unit
  getLabels : Except Err (List Label)
  fetchMessages : Option String → Except Err (List MsgData)

/-- The plain fields read off contacts returned by `client.getContacts`. -/
structure Contact where
  idSerialized : String
  name : JVal
  pushname : JVal
  number : JVal
  isMe : JVal
  isUser : JVal
  isGroup : JVal
  isWAContact : JVal
  isMyContact : JVal
  isBlocked : JVal

/-- The `client.info` object (`wid.user` collapsed to one field). -/
structure Info where
  pushname : JVal
  widUser : JVal
  platform : JVal

/-- The wrapped-library client handle, as a record of oracles: each method
maps its arguments to the library result, `.error e` modelling a thrown
exception with message `e`.  `info` is a plain property (`none` models an
undefined `client.info`). -/
structure Client where
  sendMessage : String → Content → COpts → Except Err SentMsg
  getMessageById : JVal → Except Err Msg
  getChatById : JVal → Except Err Chat
  acceptInvite : JVal → Except Err Unit
  createGroup : JVal → List String → Except Err JVal
  info : Option Info
  setStatus : JVal → Except Err Unit
  approveGroupMembershipRequests : JVal → MOpts → Except Err JVal
  rejectGroupMembershipRequests : JVal → MOpts → Except Err JVal
  getContactDeviceCount : String → Except Err JVal
  syncHistory : JVal → Except Err JVal
  getBroadcasts : Except Err JVal
  setBackgroundSync : JVal → Except Err JVal
  getChats : Except Err (List Chat)
  getContacts : Except Err (List Contact)
  openChatWindowAt : JVal → Except Err Unit

/-- An uploaded file as provided by the upload middleware; `dataB64` is the
base64 rendering of the file content read back from disk. -/
structure UFile where
  mimetype : String
  originalname : String
  dataB64 : String

/-- An HTTP request: parsed JSON body, the path parameter (for routes that
have one), the `limit` query value (for the messages route), the uploaded
file (for the media route), and the current time rendered by
`new Date().toISOString()`. -/
structure Req where
  body : Body
  param : String
  queryLimit : Option String
  file : Option UFile
  now : String

/-- Handler of POST /send-message (src/server.js lines 94-107). -/
def sendMessageH (cl : Client) (b : Body) : Resp × Trace :=
  let «to» := bget b "to"
  let message := bget b "message"
  if !truthy «to» || !truthy message then
    (jerr 400 "to and message are required", [])
  else
    match normalizeJ «to» with
    | .error e => (jerr 500 e, [])
    | .ok chatId =>
        match cl.sendMessage chatId (.plain message) .noOpts with
        | .error e => (jerr 500 e, [(.sendMessage chatId (.plain message) .noOpts, some e)])
        | .ok result =>
            (jok (.obj [("success", .bool true), ("messageId", .str result.idSerialized)]),
             [(.sendMessage chatId (.plain message) .noOpts, none)])

/-- Handler of POST /reply-message (lines 110-123). -/
def replyMessageH (cl : Client) (b : Body) : Resp × Trace :=
  let messageId := bget b "messageId"
  let reply := bget b "reply"
  if !truthy messageId || !truthy reply then
    (jerr 400 "messageId and reply are required", [])
  else
    match cl.getMessageById messageId with
    | .error e => (jerr 500 e, [(.getMessageById messageId, some e)])
    | .ok message =>
        match message.reply reply with
        | .error e => (jerr 500 e, [(.getMessageById messageId, none), (.msgReply reply, some e)])
        | .ok _ => (successResp, [(.getMessageById messageId, none), (.msgReply reply, none)])

/-- Handler of POST /set-subject (lines 126-143). -/
def setSubjectH (cl : Client) (b : Body) : Resp × Trace :=
  let chatId := bget b "chatId"
  let subject := bget b "subject"
  if !truthy chatId || !truthy subject then
    (jerr 400 "chatId and subject are required", [])
  else
    match cl.getChatById chatId with
    | .error e => (jerr 500 e, [(.getChatById chatId, some e)])
    | .ok chat =>
        if !chat.isGroup then
          (jerr 400 "This can only be used in a group", [(.getChatById chatId, none)])
        else
          match chat.setSubject subject with
          | .error e =>
              (jerr 500 e, [(.getChatById chatId, none), (.chatSetSubject subject, some e)])
          | .ok _ => (successResp, [(.getChatById chatId, none), (.chatSetSubject subject, none)])

/-- Handler of POST /set-description (lines 146-163). -/
def setDescriptionH (cl : Client) (b : Body) : Resp × Trace :=
  let chatId := bget b "chatId"
  let description := bget b "description"
  if !truthy chatId || !truthy description then
    (jerr 400 "chatId and description are required", [])
  else
    match cl.getChatById chatId with
    | .error e => (jerr 500 e, [(.getChatById chatId, some e)])
    | .ok chat =>
        if !chat.isGroup then
          (jerr 400 "This can only be used in a group", [(.getChatById chatId, none)])
        else
          match chat.setDescription description with
          | .error e =>
              (jerr 500 e, [(.getChatById chatId, none), (.chatSetDescription description, some e)])
          | .ok _ =>
              (successResp, [(.getChatById chatId, none), (.chatSetDescription description, none)])

/-- Handler of POST /leave-group (lines 166-183). -/
def leaveGroupH (cl : Client) (b : Body) : Resp × Trace :=
  let chatId := bget b "chatId"
  if !truthy chatId then
    (jerr 400 "chatId is required", [])
  else
    match cl.getChatById chatId with
    | .error e => (jerr 500 e, [(.getChatById chatId, some e)])
    | .ok chat =>
        if !chat.isGroup then
          (jerr 400 "This can only be used in a group", [(.getChatById chatId, none)])
        else
          match chat.leave with
          | .error e => (jerr 500 e, [(.getChatById chatId, none), (.chatLeave, some e)])
          | .ok _ => (successResp, [(.getChatById chatId, none), (.chatLeave, none)])

/-- Handler of POST /join-group (lines 186-198). -/
def joinGroupH (cl : Client) (b : Body) : Resp × Trace :=
  let inviteCode := bget b "inviteCode"
  if !truthy inviteCode then
    (jerr 400 "inviteCode is required", [])
  else
    match cl.acceptInvite inviteCode with
    | .error e => (jerr 500 e, [(.acceptInvite inviteCode, some e)])
    | .ok _ => (successResp, [(.acceptInvite inviteCode, none)])

/-- Handler of POST /add-members (lines 201-215). -/
def addMembersH (cl : Client) (b : Body) : Resp × Trace :=
  let chatId := bget b "chatId"
  let participants := bget b "participants"
  if !truthy chatId || !truthy participants || !isArr participants then
    (jerr 400 "chatId and participants array are required", [])
  else
    match cl.getChatById chatId with
    | .error e => (jerr 500 e, [(.getChatById chatId, some e)])
    | .ok group =>
        match normalizeList (getArr participants) with
        | .error e => (jerr 500 e, [(.getChatById chatId, none)])
        | .ok formattedParticipants =>
            match group.addParticipants formattedParticipants with
            | .error e =>
                (jerr 500 e,
                 [(.getChatById chatId, none), (.chatAddParticipants formattedParticipants, some e)])
            | .ok result =>
                (jok (.obj [("success", .bool true), ("result", result)]),
                 [(.getChatById chatId, none), (.chatAddParticipants formattedParticipants, none)])

/-- Handler of POST /create-group (lines 218-231). -/
def createGroupH (cl : Client) (b : Body) : Resp × Trace :=
  let title := bget b "title"
  let participants := bget b "participants"
  if !truthy title || !truthy participants || !isArr participants then
    (jerr 400 "title and participants array are required", [])
  else
    match normalizeList (getArr participants) with
    | .error e => (jerr 500 e, [])
    | .ok formattedParticipants =>
        match cl.createGroup title formattedParticipants with
        | .error e => (jerr 500 e, [(.createGroup title formattedParticipants, some e)])
        | .ok result =>
            (jok (.obj [("success", .bool true), ("result", result)]),
             [(.createGroup title formattedParticipants, none)])

/-- Handler of GET /group-info/:chatId (lines 234-256). -/
def groupInfoH (cl : Client) (chatId : String) : Resp × Trace :=
  match cl.getChatById (.str chatId) with
  | .error e => (jerr 500 e, [(.getChatById (.str chatId), some e)])
  | .ok chat =>
      if !chat.isGroup then
        (jerr 400 "This can only be used in a group", [(.getChatById (.str chatId), none)])
      else
        match jprop chat.owner "user" with
        | .error e => (jerr 500 e, [(.getChatById (.str chatId), none)])
        | .ok ownerUser =>
            (jok (.obj [("name", chat.name), ("description", chat.description),
                        ("createdAt", chat.createdAt), ("owner", ownerUser),
                        ("participantCount", .num chat.participants.length),
                        ("participants", .arr chat.participants)]),
             [(.getChatById (.str chatId), none)])

/-- The serialization of one chat in the GET /chats handler (lines 262-268). -/
def serializeChat (chat : Chat) : JVal :=
  .obj [("id", .str chat.idSerialized), ("name", chat.name), ("isGroup", .bool chat.isGroup),
        ("unreadCount", chat.unreadCount), ("timestamp", chat.timestamp)]

/-- Handler of GET /chats (lines 259-273). -/
def chatsH (cl : Client) : Resp × Trace :=
  match cl.getChats with
  | .error e => (jerr 500 e, [(.getChats, some e)])
  | .ok chats =>
      (jok (.obj [("count", .num chats.length), ("chats", .arr (chats.map serializeChat))]),
       [(.getChats, none)])

/-- Handler of GET /info (lines 276-287): `client.info` is a plain property
access; reading fields off an undefined `info` throws. -/
def infoH (cl : Client) : Resp × Trace :=
  match cl.info with
  | none => (jerr 500 "Cannot read properties of undefined reading pushname", [])
  | some info =>
      (jok (.obj [("pushname", info.pushname), ("number", info.widUser),
                  ("platform", info.platform)]), [])

/-- Handler of POST /send-location (lines 290-304). -/
def sendLocationH (cl : Client) (b : Body) : Resp × Trace :=
  let «to» := bget b "to"
  let latitude := bget b "latitude"
  let longitude := bget b "longitude"
  if !truthy «to» || !truthy latitude || !truthy longitude then
    (jerr 400 "to, latitude, and longitude are required", [])
  else
    match normalizeJ «to» with
    | .error e => (jerr 500 e, [])
    | .ok chatId =>
        let location := Content.location latitude longitude (bget b "name") (bget b "address")
          (bget b "url")
        match cl.sendMessage chatId location .noOpts with
        | .error e => (jerr 500 e, [(.sendMessage chatId location .noOpts, some e)])
        | .ok _ => (successResp, [(.sendMessage chatId location .noOpts, none)])

/-- Handler of POST /set-status (lines 307-319). -/
def setStatusH (cl : Client) (b : Body) : Resp × Trace :=
  let status := bget b "status"
  if !truthy status then
    (jerr 400 "status is required", [])
  else
    match cl.setStatus status with
    | .error e => (jerr 500 e, [(.setStatus status, some e)])
    | .ok _ => (successResp, [(.setStatus status, none)])

/-- Handler of POST /mention-users (lines 322-336). -/
def mentionUsersH (cl : Client) (b : Body) : Resp × Trace :=
  let chatId := bget b "chatId"
  let message := bget b "message"
  let mentions := bget b "mentions"
  if !truthy chatId || !truthy message || !truthy mentions || !isArr mentions then
    (jerr 400 "chatId, message, and mentions array are required", [])
  else
    match cl.getChatById chatId with
    | .error e => (jerr 500 e, [(.getChatById chatId, some e)])
    | .ok chat =>
        match normalizeList (getArr mentions) with
        | .error e => (jerr 500 e, [(.getChatById chatId, none)])
        | .ok formattedMentions =>
            match chat.sendMessage message (.mentionsOpt formattedMentions) with
            | .error e =>
                (jerr 500 e,
                 [(.getChatById chatId, none),
                  (.chatSendMessage message (.mentionsOpt formattedMentions), some e)])
            | .ok _ =>
                (successResp,
                 [(.getChatById chatId, none),
                  (.chatSendMessage message (.mentionsOpt formattedMentions), none)])

/-- Handler of POST /mention-groups (lines 339-352). -/
def mentionGroupsH (cl : Client) (b : Body) : Resp × Trace :=
  let chatId := bget b "chatId"
  let message := bget b "message"
  let groupMentions := bget b "groupMentions"
  if !truthy chatId || !truthy message || !truthy groupMentions then
    (jerr 400 "chatId, message, and groupMentions are required", [])
  else
    match cl.getChatById chatId with
    | .error e => (jerr 500 e, [(.getChatById chatId, some e)])
    | .ok chat =>
        match chat.sendMessage message (.groupMentionsOpt groupMentions) with
        | .error e =>
            (jerr 500 e,
             [(.getChatById chatId, none),
              (.chatSendMessage message (.groupMentionsOpt groupMentions), some e)])
        | .ok _ =>
            (successResp,
             [(.getChatById chatId, none),
              (.chatSendMessage message (.groupMentionsOpt groupMentions), none)])

/-- Handler of POST /delete-message (lines 355-372). -/
def deleteMessageH (cl : Client) (b : Body) : Resp × Trace :=
  let messageId := bget b "messageId"
  let forEveryone := bgetD b "forEveryone" (.bool true)
  if !truthy messageId then
    (jerr 400 "messageId is required", [])
  else
    match cl.getMessageById messageId with
    | .error e => (jerr 500 e, [(.getMessageById messageId, some e)])
    | .ok message =>
        if !message.fromMe then
          (jerr 400 "Can only delete own messages", [(.getMessageById messageId, none)])
        else
          match message.delete forEveryone with
          | .error e =>
              (jerr 500 e, [(.getMessageById messageId, none), (.msgDelete forEveryone, some e)])
          | .ok _ =>
              (successResp, [(.getMessageById messageId, none), (.msgDelete forEveryone, none)])

/-- Handler of POST /pin-chat (lines 375-388). -/
def pinChatH (cl : Client) (b : Body) : Resp × Trace :=
  let chatId := bget b "chatId"
  if !truthy chatId then
    (jerr 400 "chatId is required", [])
  else
    match cl.getChatById chatId with
    | .error e => (jerr 500 e, [(.getChatById chatId, some e)])
    | .ok chat =>
        match chat.pin with
        | .error e => (jerr 500 e, [(.getChatById chatId, none), (.chatPin, some e)])
        | .ok _ => (successResp, [(.getChatById chatId, none), (.chatPin, none)])

/-- Handler of POST /archive-chat (lines 391-404). -/
def archiveChatH (cl : Client) (b : Body) : Resp × Trace :=
  let chatId := bget b "chatId"
  if !truthy chatId then
    (jerr 400 "chatId is required", [])
  else
    match cl.getChatById chatId with
    | .error e => (jerr 500 e, [(.getChatById chatId, some e)])
    | .ok chat =>
        match chat.archive with
        | .error e => (jerr 500 e, [(.getChatById chatId, none), (.chatArchive, some e)])
        | .ok _ => (successResp, [(.getChatById chatId, none), (.chatArchive, none)])

/-- Handler of POST /mute-chat (lines 407-422); the `Date` arithmetic that
turns `duration` seconds into the unmute date is abstracted: the recorded
call carries the raw `duration` value (default 20). -/
def muteChatH (cl : Client) (b : Body) : Resp × Trace :=
  let chatId := bget b "chatId"
  let duration := bgetD b "duration" (.num 20)
  if !truthy chatId then
    (jerr 400 "chatId is required", [])
  else
    match cl.getChatById chatId with
    | .error e => (jerr 500 e, [(.getChatById chatId, some e)])
    | .ok chat =>
        match chat.mute duration with
        | .error e => (jerr 500 e, [(.getChatById chatId, none), (.chatMute duration, some e)])
        | .ok _ => (successResp, [(.getChatById chatId, none), (.chatMute duration, none)])

/-- Handler of POST /send-typing (lines 425-438). -/
def sendTypingH (cl : Client) (b : Body) : Resp × Trace :=
  let chatId := bget b "chatId"
  if !truthy chatId then
    (jerr 400 "chatId is required", [])
  else
    match cl.getChatById chatId with
    | .error e => (jerr 500 e, [(.getChatById chatId, some e)])
    | .ok chat =>
        match chat.sendStateTyping with
        | .error e => (jerr 500 e, [(.getChatById chatId, none), (.chatSendStateTyping, some e)])
        | .ok _ => (successResp, [(.getChatById chatId, none), (.chatSendStateTyping, none)])

/-- Handler of POST /send-recording (lines 441-454). -/
def sendRecordingH (cl : Client) (b : Body) : Resp × Trace :=
  let chatId := bget b "chatId"
  if !truthy chatId then
    (jerr 400 "chatId is required", [])
  else
    match cl.getChatById chatId with
    | .error e => (jerr 500 e, [(.getChatById chatId, some e)])
    | .ok chat =>
        match chat.sendStateRecording with
        | .error e => (jerr 500 e, [(.getChatById chatId, none), (.chatSendStateRecording, some e)])
        | .ok _ => (successResp, [(.getChatById chatId, none), (.chatSendStateRecording, none)])

/-- Handler of POST /clear-state (lines 457-470). -/
def clearStateH (cl : Client) (b : Body) : Resp × Trace :=
  let chatId := bget b "chatId"
  if !truthy chatId then
    (jerr 400 "chatId is required", [])
  else
    match cl.getChatById chatId with
    | .error e => (jerr 500 e, [(.getChatById chatId, some e)])
    | .ok chat =>
        match chat.clearState with
        | .error e => (jerr 500 e, [(.getChatById chatId, none), (.chatClearState, some e)])
        | .ok _ => (successResp, [(.getChatById chatId, none), (.chatClearState, none)])

/-- Handler of POST /send-buttons (lines 473-487). -/
def sendButtonsH (cl : Client) (b : Body) : Resp × Trace :=
  let «to» := bget b "to"
  let bodyF := bget b "body"
  let buttons := bget b "buttons"
  if !truthy «to» || !truthy bodyF || !truthy buttons || !isArr buttons then
    (jerr 400 "to, body, and buttons array are required", [])
  else
    match normalizeJ «to» with
    | .error e => (jerr 500 e, [])
    | .ok chatId =>
        let buttonObj := Content.buttonsC bodyF buttons (bget b "title") (bget b "footer")
        match cl.sendMessage chatId buttonObj .noOpts with
        | .error e => (jerr 500 e, [(.sendMessage chatId buttonObj .noOpts, some e)])
        | .ok _ => (successResp, [(.sendMessage chatId buttonObj .noOpts, none)])

/-- Handler of POST /send-list (lines 490-504). -/
def sendListH (cl : Client) (b : Body) : Resp × Trace :=
  let «to» := bget b "to"
  let bodyF := bget b "body"
  let buttonText := bget b "buttonText"
  let sections := bget b "sections"
  if !truthy «to» || !truthy bodyF || !truthy buttonText || !truthy sections ||
      !isArr sections then
    (jerr 400 "to, body, buttonText, and sections array are required", [])
  else
    match normalizeJ «to» with
    | .error e => (jerr 500 e, [])
    | .ok chatId =>
        let list := Content.listC bodyF buttonText sections (bget b "title") (bget b "footer")
        match cl.sendMessage chatId list .noOpts with
        | .error e => (jerr 500 e, [(.sendMessage chatId list .noOpts, some e)])
        | .ok _ => (successResp, [(.sendMessage chatId list .noOpts, none)])

/-- Handler of POST /send-reaction (lines 507-520). -/
def sendReactionH (cl : Client) (b : Body) : Resp × Trace :=
  let messageId := bget b "messageId"
  let reaction := bget b "reaction"
  if !truthy messageId || !truthy reaction then
    (jerr 400 "messageId and reaction are required", [])
  else
    match cl.getMessageById messageId with
    | .error e => (jerr 500 e, [(.getMessageById messageId, some e)])
    | .ok message =>
        match message.react reaction with
        | .error e => (jerr 500 e, [(.getMessageById messageId, none), (.msgReact reaction, some e)])
        | .ok _ => (successResp, [(.getMessageById messageId, none), (.msgReact reaction, none)])

/-- The poll options object of POST /send-poll: `allowMultipleAnswers`
(default false), plus `messageSecret` when truthy. -/
def pollOptionsOf (b : Body) : JVal :=
  let allowMultipleAnswers := bgetD b "allowMultipleAnswers" (.bool false)
  if truthy (bget b "messageSecret") then
    .obj [("allowMultipleAnswers", allowMultipleAnswers), ("messageSecret", bget b "messageSecret")]
  else
    .obj [("allowMultipleAnswers", allowMultipleAnswers)]

/-- Handler of POST /send-poll (lines 523-540). -/
def sendPollH (cl : Client) (b : Body) : Resp × Trace :=
  let «to» := bget b "to"
  let question := bget b "question"
  let options := bget b "options"
  if !truthy «to» || !truthy question || !truthy options || !isArr options then
    (jerr 400 "to, question, and options array are required", [])
  else
    match normalizeJ «to» with
    | .error e => (jerr 500 e, [])
    | .ok chatId =>
        let poll := Content.pollC question options (pollOptionsOf b)
        match cl.sendMessage chatId poll .noOpts with
        | .error e => (jerr 500 e, [(.sendMessage chatId poll .noOpts, some e)])
        | .ok _ => (successResp, [(.sendMessage chatId poll .noOpts, none)])

/-- Handler of POST /edit-message (lines 543-560). -/
def editMessageH (cl : Client) (b : Body) : Resp × Trace :=
  let messageId := bget b "messageId"
  let newText := bget b "newText"
  if !truthy messageId || !truthy newText then
    (jerr 400 "messageId and newText are required", [])
  else
    match cl.getMessageById messageId with
    | .error e => (jerr 500 e, [(.getMessageById messageId, some e)])
    | .ok message =>
        if !message.fromMe then
          (jerr 400 "Can only edit own messages", [(.getMessageById messageId, none)])
        else
          match message.edit newText with
          | .error e =>
              (jerr 500 e, [(.getMessageById messageId, none), (.msgEdit newText, some e)])
          | .ok _ => (successResp, [(.getMessageById messageId, none), (.msgEdit newText, none)])

/-- Handler of POST /update-labels (lines 563-576). -/
def updateLabelsH (cl : Client) (b : Body) : Resp × Trace :=
  let chatId := bget b "chatId"
  let labelIds := bget b "labelIds"
  if !truthy chatId || !truthy labelIds || !isArr labelIds then
    (jerr 400 "chatId and labelIds array are required", [])
  else
    match cl.getChatById chatId with
    | .error e => (jerr 500 e, [(.getChatById chatId, some e)])
    | .ok chat =>
        match chat.changeLabels (getArr labelIds) with
        | .error e =>
            (jerr 500 e, [(.getChatById chatId, none), (.chatChangeLabels (getArr labelIds), some e)])
        | .ok _ =>
            (successResp, [(.getChatById chatId, none), (.chatChangeLabels (getArr labelIds), none)])

/-- Handler of POST /add-labels (lines 579-594): reads the existing labels,
appends the new ids, and writes the combined list back. -/
def addLabelsH (cl : Client) (b : Body) : Resp × Trace :=
  let chatId := bget b "chatId"
  let newLabelIds := bget b "newLabelIds"
  if !truthy chatId || !truthy newLabelIds || !isArr newLabelIds then
    (jerr 400 "chatId and newLabelIds array are required", [])
  else
    match cl.getChatById chatId with
    | .error e => (jerr 500 e, [(.getChatById chatId, some e)])
    | .ok chat =>
        match chat.getLabels with
        | .error e => (jerr 500 e, [(.getChatById chatId, none), (.chatGetLabels, some e)])
        | .ok labels0 =>
            let labels := labels0.map (fun l => l.id) ++ getArr newLabelIds
            match chat.changeLabels labels with
            | .error e =>
                (jerr 500 e,
                 [(.getChatById chatId, none), (.chatGetLabels, none),
                  (.chatChangeLabels labels, some e)])
            | .ok _ =>
                (successResp,
                 [(.getChatById chatId, none), (.chatGetLabels, none),
                  (.chatChangeLabels labels, none)])

/-- Handler of POST /remove-labels (lines 597-610). -/
def removeLabelsH (cl : Client) (b : Body) : Resp × Trace :=
  let chatId := bget b "chatId"
  if !truthy chatId then
    (jerr 400 "chatId is required", [])
  else
    match cl.getChatById chatId with
    | .error e => (jerr 500 e, [(.getChatById chatId, some e)])
    | .ok chat =>
        match chat.changeLabels [] with
        | .error e => (jerr 500 e, [(.getChatById chatId, none), (.chatChangeLabels [], some e)])
        | .ok _ => (successResp, [(.getChatById chatId, none), (.chatChangeLabels [], none)])

/-- The options object of the membership-request handlers (lines 620-622,
639-641). -/
def membershipOpts (b : Body) : MOpts :=
  { requesterIds := if truthy (bget b "requesterIds") then some (bget b "requesterIds") else none
    sleep := match bget b "sleep" with
             | .undefined => none
             | v => some v }

/-- Handler of POST /approve-request (lines 613-629). -/
def approveRequestH (cl : Client) (b : Body) : Resp × Trace :=
  let chatId := bget b "chatId"
  if !truthy chatId then
    (jerr 400 "chatId is required", [])
  else
    match cl.approveGroupMembershipRequests chatId (membershipOpts b) with
    | .error e =>
        (jerr 500 e, [(.approveGroupMembershipRequests chatId (membershipOpts b), some e)])
    | .ok result =>
        (jok (.obj [("success", .bool true), ("result", result)]),
         [(.approveGroupMembershipRequests chatId (membershipOpts b), none)])

/-- Handler of POST /reject-request (lines 632-648). -/
def rejectRequestH (cl : Client) (b : Body) : Resp × Trace :=
  let chatId := bget b "chatId"
  if !truthy chatId then
    (jerr 400 "chatId is required", [])
  else
    match cl.rejectGroupMembershipRequests chatId (membershipOpts b) with
    | .error e =>
        (jerr 500 e, [(.rejectGroupMembershipRequests chatId (membershipOpts b), some e)])
    | .ok result =>
        (jok (.obj [("success", .bool true), ("result", result)]),
         [(.rejectGroupMembershipRequests chatId (membershipOpts b), none)])

/-- Handler of POST /pin-message (lines 651-664). -/
def pinMessageH (cl : Client) (b : Body) : Resp × Trace :=
  let messageId := bget b "messageId"
  let duration := bgetD b "duration" (.num 86400)
  if !truthy messageId then
    (jerr 400 "messageId is required", [])
  else
    match cl.getMessageById messageId with
    | .error e => (jerr 500 e, [(.getMessageById messageId, some e)])
    | .ok message =>
        match message.pin duration with
        | .error e => (jerr 500 e, [(.getMessageById messageId, none), (.msgPin duration, some e)])
        | .ok result =>
            (jok (.obj [("success", .bool true), ("result", result)]),
             [(.getMessageById messageId, none), (.msgPin duration, none)])

/-- Handler of POST /unpin-message (lines 667-680). -/
def unpinMessageH (cl : Client) (b : Body) : Resp × Trace :=
  let messageId := bget b "messageId"
  if !truthy messageId then
    (jerr 400 "messageId is required", [])
  else
    match cl.getMessageById messageId with
    | .error e => (jerr 500 e, [(.getMessageById messageId, some e)])
    | .ok message =>
        match message.unpin with
        | .error e => (jerr 500 e, [(.getMessageById messageId, none), (.msgUnpin, some e)])
        | .ok result =>
            (jok (.obj [("success", .bool true), ("result", result)]),
             [(.getMessageById messageId, none), (.msgUnpin, none)])

/-- Handler of GET /device-count/:contactId (lines 683-691). -/
def deviceCountH (cl : Client) (contactId : String) : Resp × Trace :=
  match cl.getContactDeviceCount contactId with
  | .error e => (jerr 500 e, [(.getContactDeviceCount contactId, some e)])
  | .ok deviceCount =>
      (jok (.obj [("deviceCount", deviceCount)]), [(.getContactDeviceCount contactId, none)])

/-- Handler of POST /sync-history (lines 694-706). -/
def syncHistoryH (cl : Client) (b : Body) : Resp × Trace :=
  let chatId := bget b "chatId"
  if !truthy chatId then
    (jerr 400 "chatId is required", [])
  else
    match cl.syncHistory chatId with
    | .error e => (jerr 500 e, [(.syncHistory chatId, some e)])
    | .ok isSynced =>
        (jok (.obj [("success", .bool true), ("isSynced", isSynced)]),
         [(.syncHistory chatId, none)])

/-- Handler of GET /statuses (lines 709-716). -/
def statusesH (cl : Client) : Resp × Trace :=
  match cl.getBroadcasts with
  | .error e => (jerr 500 e, [(.getBroadcasts, some e)])
  | .ok statuses => (jok (.obj [("statuses", statuses)]), [(.getBroadcasts, none)])

/-- Handler of POST /send-media (lines 719-752); the filesystem read of the
uploaded file is modelled by the `dataB64` field of `UFile`, and the
clean-up `unlink` is not a wrapped-library call. -/
def sendMediaH (cl : Client) (b : Body) (file : Option UFile) : Resp × Trace :=
  let «to» := bget b "to"
  let sendMediaAsHd := bgetD b "sendMediaAsHd" (.bool false)
  let isViewOnce := bgetD b "isViewOnce" (.bool false)
  let sendAudioAsVoice := bgetD b "sendAudioAsVoice" (.bool false)
  match file with
  | none => (jerr 400 "to and media file are required", [])
  | some f =>
      if !truthy «to» then
        (jerr 400 "to and media file are required", [])
      else
        match normalizeJ «to» with
        | .error e => (jerr 500 e, [])
        | .ok chatId =>
            let options := COpts.mediaOpts (bget b "caption") sendMediaAsHd isViewOnce
              sendAudioAsVoice
            let mediaMessage := Content.mediaC f.mimetype f.dataB64 f.originalname
            match cl.sendMessage chatId mediaMessage options with
            | .error e => (jerr 500 e, [(.sendMessage chatId mediaMessage options, some e)])
            | .ok _ => (successResp, [(.sendMessage chatId mediaMessage options, none)])

/-- Handler of POST /send-vcard (lines 755-768). -/
def sendVcardH (cl : Client) (b : Body) : Resp × Trace :=
  let «to» := bget b "to"
  let vCard := bget b "vCard"
  if !truthy «to» || !truthy vCard then
    (jerr 400 "to and vCard are required", [])
  else
    match normalizeJ «to» with
    | .error e => (jerr 500 e, [])
    | .ok chatId =>
        match cl.sendMessage chatId (.plain vCard) .noOpts with
        | .error e => (jerr 500 e, [(.sendMessage chatId (.plain vCard) .noOpts, some e)])
        | .ok _ => (successResp, [(.sendMessage chatId (.plain vCard) .noOpts, none)])

/-- Handler of POST /change-sync (lines 771-779). -/
def changeSyncH (cl : Client) (b : Body) : Resp × Trace :=
  let enabled := bgetD b "enabled" (.bool true)
  match cl.setBackgroundSync enabled with
  | .error e => (jerr 500 e, [(.setBackgroundSync enabled, some e)])
  | .ok backgroundSync =>
      (jok (.obj [("success", .bool true), ("backgroundSync", backgroundSync)]),
       [(.setBackgroundSync enabled, none)])

/-- Handler of GET /download-media/:messageId (lines 782-801). -/
def downloadMediaH (cl : Client) (messageId : String) : Resp × Trace :=
  match cl.getMessageById (.str messageId) with
  | .error e => (jerr 500 e, [(.getMessageById (.str messageId), some e)])
  | .ok message =>
      if !message.hasMedia then
        (jerr 400 "Message does not have media", [(.getMessageById (.str messageId), none)])
      else
        match message.downloadMedia with
        | .error e =>
            (jerr 500 e, [(.getMessageById (.str messageId), none), (.msgDownloadMedia, some e)])
        | .ok media =>
            (jok (.obj [("mimetype", media.mimetype), ("filename", media.filename),
                        ("data", .str media.data), ("dataLength", .num media.data.length)]),
             [(.getMessageById (.str messageId), none), (.msgDownloadMedia, none)])

/-- Handler of GET /message-info/:messageId (lines 804-828). -/
def messageInfoH (cl : Client) (messageId : String) : Resp × Trace :=
  match cl.getMessageById (.str messageId) with
  | .error e => (jerr 500 e, [(.getMessageById (.str messageId), some e)])
  | .ok message =>
      (jok (.obj [("id", .str message.idSerialized), ("body", message.body),
                  ("type", message.type), ("timestamp", message.timestamp),
                  ("from", message.«from»), ("to", message.«to»),
                  ("author", message.author), ("fromMe", .bool message.fromMe),
                  ("hasMedia", .bool message.hasMedia),
                  ("hasQuotedMsg", .bool message.hasQuotedMsg),
                  ("isForwarded", message.isForwarded), ("isStatus", message.isStatus),
                  ("isStarred", message.isStarred), ("broadcast", message.broadcast)]),
       [(.getMessageById (.str messageId), none)])

/-- Handler of GET /quoted-message/:messageId (lines 831-852). -/
def quotedMessageH (cl : Client) (messageId : String) : Resp × Trace :=
  match cl.getMessageById (.str messageId) with
  | .error e => (jerr 500 e, [(.getMessageById (.str messageId), some e)])
  | .ok message =>
      if !message.hasQuotedMsg then
        (jerr 400 "Message does not have quoted message",
         [(.getMessageById (.str messageId), none)])
      else
        match message.getQuotedMessage with
        | .error e =>
            (jerr 500 e, [(.getMessageById (.str messageId), none), (.msgGetQuotedMessage, some e)])
        | .ok quotedMsg =>
            (jok (.obj [("id", .str quotedMsg.idSerialized), ("type", quotedMsg.type),
                        ("author", jor quotedMsg.author quotedMsg.«from»),
                        ("timestamp", quotedMsg.timestamp), ("hasMedia", quotedMsg.hasMedia),
                        ("body", quotedMsg.body)]),
             [(.getMessageById (.str messageId), none), (.msgGetQuotedMessage, none)])

/-- Handler of POST /jump-to-message (lines 855-867);
`client.interface.openChatWindowAt` is recorded as one library call. -/
def jumpToMessageH (cl : Client) (b : Body) : Resp × Trace :=
  let messageId := bget b "messageId"
  if !truthy messageId then
    (jerr 400 "messageId is required", [])
  else
    match cl.openChatWindowAt messageId with
    | .error e => (jerr 500 e, [(.openChatWindowAt messageId, some e)])
    | .ok _ => (successResp, [(.openChatWindowAt messageId, none)])

/-- The serialization of one contact in GET /contacts (lines 873-884). -/
def serializeContact (contact : Contact) : JVal :=
  .obj [("id", .str contact.idSerialized), ("name", contact.name),
        ("pushname", contact.pushname), ("number", contact.number), ("isMe", contact.isMe),
        ("isUser", contact.isUser), ("isGroup", contact.isGroup),
        ("isWAContact", contact.isWAContact), ("isMyContact", contact.isMyContact),
        ("isBlocked", contact.isBlocked)]

/-- Handler of GET /contacts (lines 870-889). -/
def contactsH (cl : Client) : Resp × Trace :=
  match cl.getContacts with
  | .error e => (jerr 500 e, [(.getContacts, some e)])
  | .ok contacts =>
      (jok (.obj [("contacts", .arr (contacts.map serializeContact))]), [(.getContacts, none)])

/-- Handler of GET /chat/:chatId (lines 892-916); group-only fields are
`undefined` for non-group chats (the JSON serializer omits such keys). -/
def chatByIdH (cl : Client) (chatId : String) : Resp × Trace :=
  match cl.getChatById (.str chatId) with
  | .error e => (jerr 500 e, [(.getChatById (.str chatId), some e)])
  | .ok chat =>
      (jok (.obj [("id", .str chat.idSerialized), ("name", chat.name),
                  ("isGroup", .bool chat.isGroup), ("isReadOnly", chat.isReadOnly),
                  ("unreadCount", chat.unreadCount), ("timestamp", chat.timestamp),
                  ("archived", chat.archived), ("pinned", chat.pinned),
                  ("isMuted", chat.isMuted), ("muteExpiration", chat.muteExpiration),
                  ("participants", if chat.isGroup then .arr chat.participants else .undefined),
                  ("description", if chat.isGroup then chat.description else .undefined),
                  ("owner", if chat.isGroup then chat.owner else .undefined),
                  ("createdAt", if chat.isGroup then chat.createdAt else .undefined)]),
       [(.getChatById (.str chatId), none)])

/-- The serialization of one message in GET /messages/:chatId (lines 927-938). -/
def serializeMsgData (msg : MsgData) : JVal :=
  .obj [("id", .str msg.idSerialized), ("body", msg.body), ("type", msg.type),
        ("timestamp", msg.timestamp), ("from", msg.«from»), ("to", msg.«to»),
        ("author", msg.author), ("fromMe", .bool msg.fromMe),
        ("hasMedia", .bool msg.hasMedia), ("hasQuotedMsg", .bool msg.hasQuotedMsg)]

/-- Handler of GET /messages/:chatId (lines 919-944); the `parseInt` of the
`limit` query value (default 50) is abstracted: the recorded call carries the
raw query value. -/
def messagesH (cl : Client) (chatId : String) (queryLimit : Option String) : Resp × Trace :=
  match cl.getChatById (.str chatId) with
  | .error e => (jerr 500 e, [(.getChatById (.str chatId), some e)])
  | .ok chat =>
      match chat.fetchMessages queryLimit with
      | .error e =>
          (jerr 500 e,
           [(.getChatById (.str chatId), none), (.chatFetchMessages queryLimit, some e)])
      | .ok messages =>
          (jok (.obj [("messages", .arr (messages.map serializeMsgData))]),
           [(.getChatById (.str chatId), none), (.chatFetchMessages queryLimit, none)])

/-- Handler of POST /send-preview (lines 947-960). -/
def sendPreviewH (cl : Client) (b : Body) : Resp × Trace :=
  let «to» := bget b "to"
  let text := bget b "text"
  if !truthy «to» || !truthy text then
    (jerr 400 "to and text are required", [])
  else
    match normalizeJ «to» with
    | .error e => (jerr 500 e, [])
    | .ok chatId =>
        match cl.sendMessage chatId (.plain text) .linkPreviewTrue with
        | .error e => (jerr 500 e, [(.sendMessage chatId (.plain text) .linkPreviewTrue, some e)])
        | .ok _ => (successResp, [(.sendMessage chatId (.plain text) .linkPreviewTrue, none)])

/-- The routes registered on the Express app, in registration order. -/
inductive Route where
  | status
  | initializeRoute
  | sendMessage
  | replyMessage
  | setSubject
  | setDescription
  | leaveGroup
  | joinGroup
  | addMembers
  | createGroup
  | groupInfo
  | chats
  | info
  | sendLocation
  | setStatus
  | mentionUsers
  | mentionGroups
  | deleteMessage
  | pinChat
  | archiveChat
  | muteChat
  | sendTyping
  | sendRecording
  | clearState
  | sendButtons
  | sendList
  | sendReaction
  | sendPoll
  | editMessage
  | updateLabels
  | addLabels
  | removeLabels
  | approveRequest
  | rejectRequest
  | pinMessage
  | unpinMessage
  | deviceCount
  | syncHistory
  | statuses
  | sendMedia
  | sendVcard
  | changeSync
  | downloadMedia
  | messageInfo
  | quotedMessage
  | jumpToMessage
  | contacts
  | chatById
  | messages
  | sendPreview
deriving DecidableEq

/-- Whether the route registration includes the `checkClientReady`
middleware: GET /status (line 77) and POST /initialize (line 85) are
registered without it, every other route with it. -/
def hasReadyMw : Route → Bool
  | .status => false
  | .initializeRoute => false
  | .sendMessage => true
  | .replyMessage => true
  | .setSubject => true
  | .setDescription => true
  | .leaveGroup => true
  | .joinGroup => true
  | .addMembers => true
  | .createGroup => true
  | .groupInfo => true
  | .chats => true
  | .info => true
  | .sendLocation => true
  | .setStatus => true
  | .mentionUsers => true
  | .mentionGroups => true
  | .deleteMessage => true
  | .pinChat => true
  | .archiveChat => true
  | .muteChat => true
  | .sendTyping => true
  | .sendRecording => true
  | .clearState => true
  | .sendButtons => true
  | .sendList => true
  | .sendReaction => true
  | .sendPoll => true
  | .editMessage => true
  | .updateLabels => true
  | .addLabels => true
  | .removeLabels => true
  | .approveRequest => true
  | .rejectRequest => true
  | .pinMessage => true
  | .unpinMessage => true
  | .deviceCount => true
  | .syncHistory => true
  | .statuses => true
  | .sendMedia => true
  | .sendVcard => true
  | .changeSync => true
  | .downloadMedia => true
  | .messageInfo => true
  | .quotedMessage => true
  | .jumpToMessage => true
  | .contacts => true
  | .chatById => true
  | .messages => true
  | .sendPreview => true

/-- The process-wide mutable state: the readiness flag, the generation id of
the client handle currently held by the `client` variable (the only handle
the facade serves), and the number of client handles constructed since the
process started. -/
structure SState where
  clientReady : Bool
  client : Nat
  constructed : Nat
deriving DecidableEq

/-- The function `initializeClient()` (lines 20-66): constructs a fresh client handle,
stores it in the `client` variable, and does not touch `clientReady`. -/
def initializeClientState (s : SState) : SState :=
  { clientReady := s.clientReady, client := s.constructed + 1, constructed := s.constructed + 1 }

/-- The process state right after startup: line 1025 runs
`initializeClient()` once, and `clientReady` starts false (line 17). -/
def initState : SState :=
  ⟨false, 1, 1⟩

/-- The lifecycle events consumed from the wrapped client (lines 30-65). -/
inductive WEvent where
  | loading_screen
  | qr
  | code
  | authenticated
  | auth_failure
  | ready
  | message
  | disconnected
deriving DecidableEq

/-- The registered event callbacks: `ready` sets the flag (line 53),
`auth_failure` (line 48) and `disconnected` (line 64) clear it, every other
consumed event only logs. -/
def onEvent (s : SState) : WEvent → SState
  | .loading_screen => s
  | .qr => s
  | .code => s
  | .authenticated => s
  | .auth_failure => { s with clientReady := false }
  | .ready => { s with clientReady := true }
  | .message => s
  | .disconnected => { s with clientReady := false }

/-- The handler of each route, after the middleware chain: GET /status reports the
flag and the time, POST /initialize (lines 85-91) either answers that the
client is already initialized or constructs a fresh handle, and every other
route runs its handler against the current client handle. -/
def handlerFor (s : SState) (cl : Client) (req : Req) : Route → SState × (Resp × Trace)
  | .status =>
      (s, (jok (.obj [("ready", .bool s.clientReady), ("timestamp", .str req.now)]), []))
  | .initializeRoute =>
      if s.clientReady then
        (s, (jok (.obj [("message", .str "Client already initialized")]), []))
      else
        (initializeClientState s,
         (jok (.obj [("message", .str "Client initialization started")]), []))
  | .sendMessage => (s, sendMessageH cl req.body)
  | .replyMessage => (s, replyMessageH cl req.body)
  | .setSubject => (s, setSubjectH cl req.body)
  | .setDescription => (s, setDescriptionH cl req.body)
  | .leaveGroup => (s, leaveGroupH cl req.body)
  | .joinGroup => (s, joinGroupH cl req.body)
  | .addMembers => (s, addMembersH cl req.body)
  | .createGroup => (s, createGroupH cl req.body)
  | .groupInfo => (s, groupInfoH cl req.param)
  | .chats => (s, chatsH cl)
  | .info => (s, infoH cl)
  | .sendLocation => (s, sendLocationH cl req.body)
  | .setStatus => (s, setStatusH cl req.body)
  | .mentionUsers => (s, mentionUsersH cl req.body)
  | .mentionGroups => (s, mentionGroupsH cl req.body)
  | .deleteMessage => (s, deleteMessageH cl req.body)
  | .pinChat => (s, pinChatH cl req.body)
  | .archiveChat => (s, archiveChatH cl req.body)
  | .muteChat => (s, muteChatH cl req.body)
  | .sendTyping => (s, sendTypingH cl req.body)
  | .sendRecording => (s, sendRecordingH cl req.body)
  | .clearState => (s, clearStateH cl req.body)
  | .sendButtons => (s, sendButtonsH cl req.body)
  | .sendList => (s, sendListH cl req.body)
  | .sendReaction => (s, sendReactionH cl req.body)
  | .sendPoll => (s, sendPollH cl req.body)
  | .editMessage => (s, editMessageH cl req.body)
  | .updateLabels => (s, updateLabelsH cl req.body)
  | .addLabels => (s, addLabelsH cl req.body)
  | .removeLabels => (s, removeLabelsH cl req.body)
  | .approveRequest => (s, approveRequestH cl req.body)
  | .rejectRequest => (s, rejectRequestH cl req.body)
  | .pinMessage => (s, pinMessageH cl req.body)
  | .unpinMessage => (s, unpinMessageH cl req.body)
  | .deviceCount => (s, deviceCountH cl req.param)
  | .syncHistory => (s, syncHistoryH cl req.body)
  | .statuses => (s, statusesH cl)
  | .sendMedia => (s, sendMediaH cl req.body req.file)
  | .sendVcard => (s, sendVcardH cl req.body)
  | .changeSync => (s, changeSyncH cl req.body)
  | .downloadMedia => (s, downloadMediaH cl req.param)
  | .messageInfo => (s, messageInfoH cl req.param)
  | .quotedMessage => (s, quotedMessageH cl req.param)
  | .jumpToMessage => (s, jumpToMessageH cl req.body)
  | .contacts => (s, contactsH cl)
  | .chatById => (s, chatByIdH cl req.param)
  | .messages => (s, messagesH cl req.param req.queryLimit)
  | .sendPreview => (s, sendPreviewH cl req.body)

/-- Serving one request: the `checkClientReady` middleware (lines 69-74)
rejects with 503 when the route carries it and the flag is down; otherwise
the handler of the route runs. -/
def serve (s : SState) (cl : Client) (r : Route) (req : Req) : SState × (Resp × Trace) :=
  if hasReadyMw r && !s.clientReady then
    (s, (jerr 503 "WhatsApp client not ready", []))
  else
    handlerFor s cl req r

/-- The process states reachable from startup under any interleaving of
HTTP requests and lifecycle events. -/
inductive Reachable : SState → Prop where
  | boot : Reachable initState
  | http (s : SState) (cl : Client) (r : Route) (req : Req) :
      Reachable s → Reachable (serve s cl r req).1
  | event (s : SState) (e : WEvent) : Reachable s → Reachable (onEvent s e)

/-- The try/catch discipline of the handlers, as a predicate on a response
and a call trace: every call before the last returned normally, and when a
call threw it is the last entry and the response is exactly status 500 with
the thrown message as the JSON error body. -/
def ChainOK (resp : Resp) : Trace → Prop
  | [] => True
  | (_, none) :: tl => ChainOK resp tl
  | (_, some e) :: tl => tl = [] ∧ resp = jerr 500 e

/-- A handler outcome is well-behaved: its trace obeys the try/catch
discipline and it performed at most three wrapped-library calls. -/
def HandlerOK (rt : Resp × Trace) : Prop :=
  ChainOK rt.1 rt.2 ∧ rt.2.length ≤ 3

theorem hok0 (r : Resp) : HandlerOK (r, []) := ⟨trivial, by simp⟩

theorem hok1ok (r : Resp) (c : Call) : HandlerOK (r, [(c, none)]) := ⟨trivial, by simp⟩

theorem hok1err (e : Err) (c : Call) : HandlerOK (jerr 500 e, [(c, some e)]) :=
  ⟨⟨rfl, rfl⟩, by simp⟩

theorem hok2ok (r : Resp) (c₁ c₂ : Call) : HandlerOK (r, [(c₁, none), (c₂, none)]) :=
  ⟨trivial, by simp⟩

theorem hok2err (e : Err) (c₁ c₂ : Call) :
    HandlerOK (jerr 500 e, [(c₁, none), (c₂, some e)]) :=
  ⟨⟨rfl, rfl⟩, by simp⟩

theorem hok3ok (r : Resp) (c₁ c₂ c₃ : Call) :
    HandlerOK (r, [(c₁, none), (c₂, none), (c₃, none)]) :=
  ⟨trivial, by simp⟩

theorem hok3err (e : Err) (c₁ c₂ c₃ : Call) :
    HandlerOK (jerr 500 e, [(c₁, none), (c₂, none), (c₃, some e)]) :=
  ⟨⟨rfl, rfl⟩, by simp⟩

theorem hok_sendMessageH (cl : Client) (b : Body) : HandlerOK (sendMessageH cl b) := by
  simp only [sendMessageH]
  repeat' split
  all_goals first
    | exact hok0 _
    | exact hok1ok _ _
    | exact hok1err _ _
    | exact hok2ok _ _ _
    | exact hok2err _ _ _
    | exact hok3ok _ _ _ _
    | exact hok3err _ _ _ _

theorem hok_replyMessageH (cl : Client) (b : Body) : HandlerOK (replyMessageH cl b) := by
  simp only [replyMessageH]
  repeat' split
  all_goals first
    | exact hok0 _
    | exact hok1ok _ _
    | exact hok1err _ _
    | exact hok2ok _ _ _
    | exact hok2err _ _ _
    | exact hok3ok _ _ _ _
    | exact hok3err _ _ _ _

theorem hok_setSubjectH (cl : Client) (b : Body) : HandlerOK (setSubjectH cl b) := by
  simp only [setSubjectH]
  repeat' split
  all_goals first
    | exact hok0 _
    | exact hok1ok _ _
    | exact hok1err _ _
    | exact hok2ok _ _ _
    | exact hok2err _ _ _
    | exact hok3ok _ _ _ _
    | exact hok3err _ _ _ _

theorem hok_setDescriptionH (cl : Client) (b : Body) : HandlerOK (setDescriptionH cl b) := by
  simp only [setDescriptionH]
  repeat' split
  all_goals first
    | exact hok0 _
    | exact hok1ok _ _
    | exact hok1err _ _
    | exact hok2ok _ _ _
    | exact hok2err _ _ _
    | exact hok3ok _ _ _ _
    | exact hok3err _ _ _ _

theorem hok_leaveGroupH (cl : Client) (b : Body) : HandlerOK (leaveGroupH cl b) := by
  simp only [leaveGroupH]
  repeat' split
  all_goals first
    | exact hok0 _
    | exact hok1ok _ _
    | exact hok1err _ _
    | exact hok2ok _ _ _
    | exact hok2err _ _ _
    | exact hok3ok _ _ _ _
    | exact hok3err _ _ _ _

theorem hok_joinGroupH (cl : Client) (b : Body) : HandlerOK (joinGroupH cl b) := by
  simp only [joinGroupH]
  repeat' split
  all_goals first
    | exact hok0 _
    | exact hok1ok _ _
    | exact hok1err _ _
    | exact hok2ok _ _ _
    | exact hok2err _ _ _
    | exact hok3ok _ _ _ _
    | exact hok3err _ _ _ _

theorem hok_addMembersH (cl : Client) (b : Body) : HandlerOK (addMembersH cl b) := by
  simp only [addMembersH]
  repeat' split
  all_goals first
    | exact hok0 _
    | exact hok1ok _ _
    | exact hok1err _ _
    | exact hok2ok _ _ _
    | exact hok2err _ _ _
    | exact hok3ok _ _ _ _
    | exact hok3err _ _ _ _

theorem hok_createGroupH (cl : Client) (b : Body) : HandlerOK (createGroupH cl b) := by
  simp only [createGroupH]
  repeat' split
  all_goals first
    | exact hok0 _
    | exact hok1ok _ _
    | exact hok1err _ _
    | exact hok2ok _ _ _
    | exact hok2err _ _ _
    | exact hok3ok _ _ _ _
    | exact hok3err _ _ _ _

theorem hok_groupInfoH (cl : Client) (p : String) : HandlerOK (groupInfoH cl p) := by
  simp only [groupInfoH]
  repeat' split
  all_goals first
    | exact hok0 _
    | exact hok1ok _ _
    | exact hok1err _ _
    | exact hok2ok _ _ _
    | exact hok2err _ _ _
    | exact hok3ok _ _ _ _
    | exact hok3err _ _ _ _

theorem hok_chatsH (cl : Client) : HandlerOK (chatsH cl) := by
  simp only [chatsH]
  repeat' split
  all_goals first
    | exact hok0 _
    | exact hok1ok _ _
    | exact hok1err _ _
    | exact hok2ok _ _ _
    | exact hok2err _ _ _
    | exact hok3ok _ _ _ _
    | exact hok3err _ _ _ _

theorem hok_infoH (cl : Client) : HandlerOK (infoH cl) := by
  simp only [infoH]
  repeat' split
  all_goals first
    | exact hok0 _
    | exact hok1ok _ _
    | exact hok1err _ _
    | exact hok2ok _ _ _
    | exact hok2err _ _ _
    | exact hok3ok _ _ _ _
    | exact hok3err _ _ _ _

theorem hok_sendLocationH (cl : Client) (b : Body) : HandlerOK (sendLocationH cl b) := by
  simp only [sendLocationH]
  repeat' split
  all_goals first
    | exact hok0 _
    | exact hok1ok _ _
    | exact hok1err _ _
    | exact hok2ok _ _ _
    | exact hok2err _ _ _
    | exact hok3ok _ _ _ _
    | exact hok3err _ _ _ _

theorem hok_setStatusH (cl : Client) (b : Body) : HandlerOK (setStatusH cl b) := by
  simp only [setStatusH]
  repeat' split
  all_goals first
    | exact hok0 _
    | exact hok1ok _ _
    | exact hok1err _ _
    | exact hok2ok _ _ _
    | exact hok2err _ _ _
    | exact hok3ok _ _ _ _
    | exact hok3err _ _ _ _

theorem hok_mentionUsersH (cl : Client) (b : Body) : HandlerOK (mentionUsersH cl b) := by
  simp only [mentionUsersH]
  repeat' split
  all_goals first
    | exact hok0 _
    | exact hok1ok _ _
    | exact hok1err _ _
    | exact hok2ok _ _ _
    | exact hok2err _ _ _
    | exact hok3ok _ _ _ _
    | exact hok3err _ _ _ _

theorem hok_mentionGroupsH (cl : Client) (b : Body) : HandlerOK (mentionGroupsH cl b) := by
  simp only [mentionGroupsH]
  repeat' split
  all_goals first
    | exact hok0 _
    | exact hok1ok _ _
    | exact hok1err _ _
    | exact hok2ok _ _ _
    | exact hok2err _ _ _
    | exact hok3ok _ _ _ _
    | exact hok3err _ _ _ _

theorem hok_deleteMessageH (cl : Client) (b : Body) : HandlerOK (deleteMessageH cl b) := by
  simp only [deleteMessageH]
  repeat' split
  all_goals first
    | exact hok0 _
    | exact hok1ok _ _
    | exact hok1err _ _
    | exact hok2ok _ _ _
    | exact hok2err _ _ _
    | exact hok3ok _ _ _ _
    | exact hok3err _ _ _ _

theorem hok_pinChatH (cl : Client) (b : Body) : HandlerOK (pinChatH cl b) := by
  simp only [pinChatH]
  repeat' split
  all_goals first
    | exact hok0 _
    | exact hok1ok _ _
    | exact hok1err _ _
    | exact hok2ok _ _ _
    | exact hok2err _ _ _
    | exact hok3ok _ _ _ _
    | exact hok3err _ _ _ _

theorem hok_archiveChatH (cl : Client) (b : Body) : HandlerOK (archiveChatH cl b) := by
  simp only [archiveChatH]
  repeat' split
  all_goals first
    | exact hok0 _
    | exact hok1ok _ _
    | exact hok1err _ _
    | exact hok2ok _ _ _
    | exact hok2err _ _ _
    | exact hok3ok _ _ _ _
    | exact hok3err _ _ _ _

theorem hok_muteChatH (cl : Client) (b : Body) : HandlerOK (muteChatH cl b) := by
  simp only [muteChatH]
  repeat' split
  all_goals first
    | exact hok0 _
    | exact hok1ok _ _
    | exact hok1err _ _
    | exact hok2ok _ _ _
    | exact hok2err _ _ _
    | exact hok3ok _ _ _ _
    | exact hok3err _ _ _ _

theorem hok_sendTypingH (cl : Client) (b : Body) : HandlerOK (sendTypingH cl b) := by
  simp only [sendTypingH]
  repeat' split
  all_goals first
    | exact hok0 _
    | exact hok1ok _ _
    | exact hok1err _ _
    | exact hok2ok _ _ _
    | exact hok2err _ _ _
    | exact hok3ok _ _ _ _
    | exact hok3err _ _ _ _

theorem hok_sendRecordingH (cl : Client) (b : Body) : HandlerOK (sendRecordingH cl b) := by
  simp only [sendRecordingH]
  repeat' split
  all_goals first
    | exact hok0 _
    | exact hok1ok _ _
    | exact hok1err _ _
    | exact hok2ok _ _ _
    | exact hok2err _ _ _
    | exact hok3ok _ _ _ _
    | exact hok3err _ _ _ _

theorem hok_clearStateH (cl : Client) (b : Body) : HandlerOK (clearStateH cl b) := by
  simp only [clearStateH]
  repeat' split
  all_goals first
    | exact hok0 _
    | exact hok1ok _ _
    | exact hok1err _ _
    | exact hok2ok _ _ _
    | exact hok2err _ _ _
    | exact hok3ok _ _ _ _
    | exact hok3err _ _ _ _

theorem hok_sendButtonsH (cl : Client) (b : Body) : HandlerOK (sendButtonsH cl b) := by
  simp only [sendButtonsH]
  repeat' split
  all_goals first
    | exact hok0 _
    | exact hok1ok _ _
    | exact hok1err _ _
    | exact hok2ok _ _ _
    | exact hok2err _ _ _
    | exact hok3ok _ _ _ _
    | exact hok3err _ _ _ _

theorem hok_sendListH (cl : Client) (b : Body) : HandlerOK (sendListH cl b) := by
  simp only [sendListH]
  repeat' split
  all_goals first
    | exact hok0 _
    | exact hok1ok _ _
    | exact hok1err _ _
    | exact hok2ok _ _ _
    | exact hok2err _ _ _
    | exact hok3ok _ _ _ _
    | exact hok3err _ _ _ _

theorem hok_sendReactionH (cl : Client) (b : Body) : HandlerOK (sendReactionH cl b) := by
  simp only [sendReactionH]
  repeat' split
  all_goals first
    | exact hok0 _
    | exact hok1ok _ _
    | exact hok1err _ _
    | exact hok2ok _ _ _
    | exact hok2err _ _ _
    | exact hok3ok _ _ _ _
    | exact hok3err _ _ _ _

theorem hok_sendPollH (cl : Client) (b : Body) : HandlerOK (sendPollH cl b) := by
  simp only [sendPollH]
  repeat' split
  all_goals first
    | exact hok0 _
    | exact hok1ok _ _
    | exact hok1err _ _
    | exact hok2ok _ _ _
    | exact hok2err _ _ _
    | exact hok3ok _ _ _ _
    | exact hok3err _ _ _ _

theorem hok_editMessageH (cl : Client) (b : Body) : HandlerOK (editMessageH cl b) := by
  simp only [editMessageH]
  repeat' split
  all_goals first
    | exact hok0 _
    | exact hok1ok _ _
    | exact hok1err _ _
    | exact hok2ok _ _ _
    | exact hok2err _ _ _
    | exact hok3ok _ _ _ _
    | exact hok3err _ _ _ _

theorem hok_updateLabelsH (cl : Client) (b : Body) : HandlerOK (updateLabelsH cl b) := by
  simp only [updateLabelsH]
  repeat' split
  all_goals first
    | exact hok0 _
    | exact hok1ok _ _
    | exact hok1err _ _
    | exact hok2ok _ _ _
    | exact hok2err _ _ _
    | exact hok3ok _ _ _ _
    | exact hok3err _ _ _ _

theorem hok_addLabelsH (cl : Client) (b : Body) : HandlerOK (addLabelsH cl b) := by
  simp only [addLabelsH]
  repeat' split
  all_goals first
    | exact hok0 _
    | exact hok1ok _ _
    | exact hok1err _ _
    | exact hok2ok _ _ _
    | exact hok2err _ _ _
    | exact hok3ok _ _ _ _
    | exact hok3err _ _ _ _

theorem hok_removeLabelsH (cl : Client) (b : Body) : HandlerOK (removeLabelsH cl b) := by
  simp only [removeLabelsH]
  repeat' split
  all_goals first
    | exact hok0 _
    | exact hok1ok _ _
    | exact hok1err _ _
    | exact hok2ok _ _ _
    | exact hok2err _ _ _
    | exact hok3ok _ _ _ _
    | exact hok3err _ _ _ _

theorem hok_approveRequestH (cl : Client) (b : Body) : HandlerOK (approveRequestH cl b) := by
  simp only [approveRequestH]
  repeat' split
  all_goals first
    | exact hok0 _
    | exact hok1ok _ _
    | exact hok1err _ _
    | exact hok2ok _ _ _
    | exact hok2err _ _ _
    | exact hok3ok _ _ _ _
    | exact hok3err _ _ _ _

theorem hok_rejectRequestH (cl : Client) (b : Body) : HandlerOK (rejectRequestH cl b) := by
  simp only [rejectRequestH]
  repeat' split
  all_goals first
    | exact hok0 _
    | exact hok1ok _ _
    | exact hok1err _ _
    | exact hok2ok _ _ _
    | exact hok2err _ _ _
    | exact hok3ok _ _ _ _
    | exact hok3err _ _ _ _

theorem hok_pinMessageH (cl : Client) (b : Body) : HandlerOK (pinMessageH cl b) := by
  simp only [pinMessageH]
  repeat' split
  all_goals first
    | exact hok0 _
    | exact hok1ok _ _
    | exact hok1err _ _
    | exact hok2ok _ _ _
    | exact hok2err _ _ _
    | exact hok3ok _ _ _ _
    | exact hok3err _ _ _ _

theorem hok_unpinMessageH (cl : Client) (b : Body) : HandlerOK (unpinMessageH cl b) := by
  simp only [unpinMessageH]
  repeat' split
  all_goals first
    | exact hok0 _
    | exact hok1ok _ _
    | exact hok1err _ _
    | exact hok2ok _ _ _
    | exact hok2err _ _ _
    | exact hok3ok _ _ _ _
    | exact hok3err _ _ _ _

theorem hok_deviceCountH (cl : Client) (p : String) : HandlerOK (deviceCountH cl p) := by
  simp only [deviceCountH]
  repeat' split
  all_goals first
    | exact hok0 _
    | exact hok1ok _ _
    | exact hok1err _ _
    | exact hok2ok _ _ _
    | exact hok2err _ _ _
    | exact hok3ok _ _ _ _
    | exact hok3err _ _ _ _

theorem hok_syncHistoryH (cl : Client) (b : Body) : HandlerOK (syncHistoryH cl b) := by
  simp only [syncHistoryH]
  repeat' split
  all_goals first
    | exact hok0 _
    | exact hok1ok _ _
    | exact hok1err _ _
    | exact hok2ok _ _ _
    | exact hok2err _ _ _
    | exact hok3ok _ _ _ _
    | exact hok3err _ _ _ _

theorem hok_statusesH (cl : Client) : HandlerOK (statusesH cl) := by
  simp only [statusesH]
  repeat' split
  all_goals first
    | exact hok0 _
    | exact hok1ok _ _
    | exact hok1err _ _
    | exact hok2ok _ _ _
    | exact hok2err _ _ _
    | exact hok3ok _ _ _ _
    | exact hok3err _ _ _ _

theorem hok_sendMediaH (cl : Client) (b : Body) (f : Option UFile) : HandlerOK (sendMediaH cl b f) := by
  simp only [sendMediaH]
  repeat' split
  all_goals first
    | exact hok0 _
    | exact hok1ok _ _
    | exact hok1err _ _
    | exact hok2ok _ _ _
    | exact hok2err _ _ _
    | exact hok3ok _ _ _ _
    | exact hok3err _ _ _ _

theorem hok_sendVcardH (cl : Client) (b : Body) : HandlerOK (sendVcardH cl b) := by
  simp only [sendVcardH]
  repeat' split
  all_goals first
    | exact hok0 _
    | exact hok1ok _ _
    | exact hok1err _ _
    | exact hok2ok _ _ _
    | exact hok2err _ _ _
    | exact hok3ok _ _ _ _
    | exact hok3err _ _ _ _

theorem hok_changeSyncH (cl : Client) (b : Body) : HandlerOK (changeSyncH cl b) := by
  simp only [changeSyncH]
  repeat' split
  all_goals first
    | exact hok0 _
    | exact hok1ok _ _
    | exact hok1err _ _
    | exact hok2ok _ _ _
    | exact hok2err _ _ _
    | exact hok3ok _ _ _ _
    | exact hok3err _ _ _ _

theorem hok_downloadMediaH (cl : Client) (p : String) : HandlerOK (downloadMediaH cl p) := by
  simp only [downloadMediaH]
  repeat' split
  all_goals first
    | exact hok0 _
    | exact hok1ok _ _
    | exact hok1err _ _
    | exact hok2ok _ _ _
    | exact hok2err _ _ _
    | exact hok3ok _ _ _ _
    | exact hok3err _ _ _ _

theorem hok_messageInfoH (cl : Client) (p : String) : HandlerOK (messageInfoH cl p) := by
  simp only [messageInfoH]
  repeat' split
  all_goals first
    | exact hok0 _
    | exact hok1ok _ _
    | exact hok1err _ _
    | exact hok2ok _ _ _
    | exact hok2err _ _ _
    | exact hok3ok _ _ _ _
    | exact hok3err _ _ _ _

theorem hok_quotedMessageH (cl : Client) (p : String) : HandlerOK (quotedMessageH cl p) := by
  simp only [quotedMessageH]
  repeat' split
  all_goals first
    | exact hok0 _
    | exact hok1ok _ _
    | exact hok1err _ _
    | exact hok2ok _ _ _
    | exact hok2err _ _ _
    | exact hok3ok _ _ _ _
    | exact hok3err _ _ _ _

theorem hok_jumpToMessageH (cl : Client) (b : Body) : HandlerOK (jumpToMessageH cl b) := by
  simp only [jumpToMessageH]
  repeat' split
  all_goals first
    | exact hok0 _
    | exact hok1ok _ _
    | exact hok1err _ _
    | exact hok2ok _ _ _
    | exact hok2err _ _ _
    | exact hok3ok _ _ _ _
    | exact hok3err _ _ _ _

theorem hok_contactsH (cl : Client) : HandlerOK (contactsH cl) := by
  simp only [contactsH]
  repeat' split
  all_goals first
    | exact hok0 _
    | exact hok1ok _ _
    | exact hok1err _ _
    | exact hok2ok _ _ _
    | exact hok2err _ _ _
    | exact hok3ok _ _ _ _
    | exact hok3err _ _ _ _

theorem hok_chatByIdH (cl : Client) (p : String) : HandlerOK (chatByIdH cl p) := by
  simp only [chatByIdH]
  repeat' split
  all_goals first
    | exact hok0 _
    | exact hok1ok _ _
    | exact hok1err _ _
    | exact hok2ok _ _ _
    | exact hok2err _ _ _
    | exact hok3ok _ _ _ _
    | exact hok3err _ _ _ _

theorem hok_messagesH (cl : Client) (p : String) (ql : Option String) : HandlerOK (messagesH cl p ql) := by
  simp only [messagesH]
  repeat' split
  all_goals first
    | exact hok0 _
    | exact hok1ok _ _
    | exact hok1err _ _
    | exact hok2ok _ _ _
    | exact hok2err _ _ _
    | exact hok3ok _ _ _ _
    | exact hok3err _ _ _ _

theorem hok_sendPreviewH (cl : Client) (b : Body) : HandlerOK (sendPreviewH cl b) := by
  simp only [sendPreviewH]
  repeat' split
  all_goals first
    | exact hok0 _
    | exact hok1ok _ _
    | exact hok1err _ _
    | exact hok2ok _ _ _
    | exact hok2err _ _ _
    | exact hok3ok _ _ _ _
    | exact hok3err _ _ _ _

/-- The declared shape of a required body field: a plain (truthiness-checked)
field, or a field additionally checked with `Array.isArray`. -/
inductive FieldKind where
  | scalar
  | array
deriving DecidableEq

/-- A required field is present when it is truthy, and for array fields also
an array — the complement of the claim wording "absent, or otherwise falsy, or for
array-typed fields not an array". -/
def fieldPresent (b : Body) : String × FieldKind → Bool
  | (k, .scalar) => truthy (bget b k)
  | (k, .array) => truthy (bget b k) && isArr (bget b k)

/-- The required body fields of each POST endpoint, read off the validation
conditions in src/server.js (empty for endpoints without required body
fields and for GET endpoints). -/
def requiredFields : Route → List (String × FieldKind)
  | .sendMessage => [("to", .scalar), ("message", .scalar)]
  | .replyMessage => [("messageId", .scalar), ("reply", .scalar)]
  | .setSubject => [("chatId", .scalar), ("subject", .scalar)]
  | .setDescription => [("chatId", .scalar), ("description", .scalar)]
  | .leaveGroup => [("chatId", .scalar)]
  | .joinGroup => [("inviteCode", .scalar)]
  | .addMembers => [("chatId", .scalar), ("participants", .array)]
  | .createGroup => [("title", .scalar), ("participants", .array)]
  | .sendLocation => [("to", .scalar), ("latitude", .scalar), ("longitude", .scalar)]
  | .setStatus => [("status", .scalar)]
  | .mentionUsers => [("chatId", .scalar), ("message", .scalar), ("mentions", .array)]
  | .mentionGroups => [("chatId", .scalar), ("message", .scalar), ("groupMentions", .scalar)]
  | .deleteMessage => [("messageId", .scalar)]
  | .pinChat => [("chatId", .scalar)]
  | .archiveChat => [("chatId", .scalar)]
  | .muteChat => [("chatId", .scalar)]
  | .sendTyping => [("chatId", .scalar)]
  | .sendRecording => [("chatId", .scalar)]
  | .clearState => [("chatId", .scalar)]
  | .sendButtons => [("to", .scalar), ("body", .scalar), ("buttons", .array)]
  | .sendList => [("to", .scalar), ("body", .scalar), ("buttonText", .scalar),
                  ("sections", .array)]
  | .sendReaction => [("messageId", .scalar), ("reaction", .scalar)]
  | .sendPoll => [("to", .scalar), ("question", .scalar), ("options", .array)]
  | .editMessage => [("messageId", .scalar), ("newText", .scalar)]
  | .updateLabels => [("chatId", .scalar), ("labelIds", .array)]
  | .addLabels => [("chatId", .scalar), ("newLabelIds", .array)]
  | .removeLabels => [("chatId", .scalar)]
  | .approveRequest => [("chatId", .scalar)]
  | .rejectRequest => [("chatId", .scalar)]
  | .pinMessage => [("messageId", .scalar)]
  | .unpinMessage => [("messageId", .scalar)]
  | .syncHistory => [("chatId", .scalar)]
  | .sendMedia => [("to", .scalar)]
  | .sendVcard => [("to", .scalar), ("vCard", .scalar)]
  | .jumpToMessage => [("messageId", .scalar)]
  | .sendPreview => [("to", .scalar), ("text", .scalar)]
  | _ => []

/-- The 400 error message of each POST endpoint with required body fields,
copied from the validation branch in src/server.js; it names the required
fields of the endpoint. -/
def requiredMsg : Route → String
  | .sendMessage => "to and message are required"
  | .replyMessage => "messageId and reply are required"
  | .setSubject => "chatId and subject are required"
  | .setDescription => "chatId and description are required"
  | .leaveGroup => "chatId is required"
  | .joinGroup => "inviteCode is required"
  | .addMembers => "chatId and participants array are required"
  | .createGroup => "title and participants array are required"
  | .sendLocation => "to, latitude, and longitude are required"
  | .setStatus => "status is required"
  | .mentionUsers => "chatId, message, and mentions array are required"
  | .mentionGroups => "chatId, message, and groupMentions are required"
  | .deleteMessage => "messageId is required"
  | .pinChat => "chatId is required"
  | .archiveChat => "chatId is required"
  | .muteChat => "chatId is required"
  | .sendTyping => "chatId is required"
  | .sendRecording => "chatId is required"
  | .clearState => "chatId is required"
  | .sendButtons => "to, body, and buttons array are required"
  | .sendList => "to, body, buttonText, and sections array are required"
  | .sendReaction => "messageId and reaction are required"
  | .sendPoll => "to, question, and options array are required"
  | .editMessage => "messageId and newText are required"
  | .updateLabels => "chatId and labelIds array are required"
  | .addLabels => "chatId and newLabelIds array are required"
  | .removeLabels => "chatId is required"
  | .approveRequest => "chatId is required"
  | .rejectRequest => "chatId is required"
  | .pinMessage => "messageId is required"
  | .unpinMessage => "messageId is required"
  | .syncHistory => "chatId is required"
  | .sendMedia => "to and media file are required"
  | .sendVcard => "to and vCard are required"
  | .jumpToMessage => "messageId is required"
  | .sendPreview => "to and text are required"
  | _ => ""

/-- Some required field of the route is missing from the body, in the sense
of the claim: absent, otherwise falsy, or not an array where an array is
required. -/
def someRequiredMissing (r : Route) (b : Body) : Bool :=
  (requiredFields r).any (fun f => !fieldPresent b f)

/-- A chat object whose method oracles all throw; used to build concrete
witnesses. -/
def defaultChat : Chat where
  idSerialized := "chat1@c.us"
  name := .str "chat one"
  isGroup := false
  unreadCount := .num 0
  timestamp := .num 1000
  isReadOnly := .bool false
  archived := .bool false
  pinned := .bool false
  isMuted := .bool false
  muteExpiration := .num 0
  description := .undefined
  createdAt := .undefined
  owner := .undefined
  participants := []
  setSubject := fun _ => .error "offline"
  setDescription := fun _ => .error "offline"
  leave := .error "offline"
  addParticipants := fun _ => .error "offline"
  sendMessage := fun _ _ => .error "offline"
  pin := .error "offline"
  archive := .error "offline"
  mute := fun _ => .error "offline"
  sendStateTyping := .error "offline"
  sendStateRecording := .error "offline"
  clearState := .error "offline"
  changeLabels := fun _ => .error "offline"
  getLabels := .error "offline"
  fetchMessages := fun _ => .error "offline"

/-- A message object whose method oracles all throw; used to build concrete
witnesses. -/
def defaultMsg : Msg where
  idSerialized := "msg1"
  body := .str "hello"
  type := .str "chat"
  timestamp := .num 1000
  «from» := .str "a@c.us"
  «to» := .str "b@c.us"
  author := .undefined
  fromMe := false
  hasMedia := false
  hasQuotedMsg := false
  isForwarded := .bool false
  isStatus := .bool false
  isStarred := .bool false
  broadcast := .bool false
  reply := fun _ => .error "offline"
  delete := fun _ => .error "offline"
  edit := fun _ => .error "offline"
  react := fun _ => .error "offline"
  pin := fun _ => .error "offline"
  unpin := .error "offline"
  downloadMedia := .error "offline"
  getQuotedMessage := .error "offline"

/-- A client handle whose oracles all throw; used to build concrete
witnesses. -/
def defaultClient : Client where
  sendMessage := fun _ _ _ => .error "offline"
  getMessageById := fun _ => .error "offline"
  getChatById := fun _ => .error "offline"
  acceptInvite := fun _ => .error "offline"
  createGroup := fun _ _ => .error "offline"
  info := none
  setStatus := fun _ => .error "offline"
  approveGroupMembershipRequests := fun _ _ => .error "offline"
  rejectGroupMembershipRequests := fun _ _ => .error "offline"
  getContactDeviceCount := fun _ => .error "offline"
  syncHistory := fun _ => .error "offline"
  getBroadcasts := .error "offline"
  setBackgroundSync := fun _ => .error "offline"
  getChats := .error "offline"
  getContacts := .error "offline"
  openChatWindowAt := fun _ => .error "offline"

/-- A request with an empty body and no parameter, file or query. -/
def reqEmpty : Req where
  body := []
  param := ""
  queryLimit := none
  file := none
  now := "2026-01-01T00:00:00.000Z"

theorem includesCus_append_cus (s : String) : includesCus (s ++ "@c.us") = true := by
  simp only [includesCus, decide_eq_true_eq, String.data_append]
  exact (List.suffix_append s.data "@c.us".data).isInfix

/-- Claim C8: the chat-id normalization (append the suffix when the string
does not already contain it) is idempotent, its result always contains the
suffix, and the array form applied to participant and mention arrays is the
elementwise normalization; on an array of strings with a successful chat
lookup, the add-members and mention-users handlers hand the wrapped library
exactly the elementwise-normalized array. -/
theorem c8_normalization :
    (∀ s : String, normalizeChatId (normalizeChatId s) = normalizeChatId s
        ∧ includesCus (normalizeChatId s) = true)
    ∧ (∀ xs : List String, normalizeList (xs.map JVal.str) = .ok (xs.map normalizeChatId))
    ∧ (∀ (cl : Client) (b : Body) (xs : List String) (chat : Chat),
        bget b "participants" = .arr (xs.map JVal.str) →
        truthy (bget b "chatId") = true →
        cl.getChatById (bget b "chatId") = .ok chat →
        (addMembersH cl b).2.map Prod.fst
          = [.getChatById (bget b "chatId"),
             .chatAddParticipants (xs.map normalizeChatId)])
    ∧ (∀ (cl : Client) (b : Body) (xs : List String) (chat : Chat),
        bget b "mentions" = .arr (xs.map JVal.str) →
        truthy (bget b "chatId") = true →
        truthy (bget b "message") = true →
        cl.getChatById (bget b "chatId") = .ok chat →
        (mentionUsersH cl b).2.map Prod.fst
          = [.getChatById (bget b "chatId"),
             .chatSendMessage (bget b "message")
               (.mentionsOpt (xs.map normalizeChatId))]) := by
  have hnorm : ∀ xs : List String, normalizeList (xs.map JVal.str) = .ok (xs.map normalizeChatId) := by
    intro xs
    induction xs with
    | nil => rfl
    | cons x xs ih => simp [normalizeList, normalizeJ, ih]
  refine ⟨fun s => ?_, hnorm, fun cl b xs chat hp hc hok => ?_, fun cl b xs chat hp hc hm hok => ?_⟩
  · unfold normalizeChatId
    by_cases h : includesCus s = true
    · simp [h]
    · simp only [Bool.not_eq_true] at h
      simp [h, includesCus_append_cus]
  · simp only [addMembersH, hp, hc, hok]
    simp only [truthy, isArr, getArr, Bool.not_true, Bool.false_or, Bool.or_false]
    simp only [hnorm]
    cases chat.addParticipants (xs.map normalizeChatId) <;> simp
  · simp only [mentionUsersH, hp, hc, hm, hok]
    simp only [truthy, isArr, getArr, Bool.not_true, Bool.false_or, Bool.or_false]
    simp only [hnorm]
    cases chat.sendMessage (bget b "message") (.mentionsOpt (xs.map normalizeChatId)) <;> simp

/-- Concrete instantiation of the conditional parts of claim C8. -/
theorem c8_normalization_witness :
    (addMembersH { defaultClient with getChatById := fun _ => .ok defaultChat }
        [("chatId", .str "g123"), ("participants", .arr [.str "5551234", .str "a@c.us"])]).2.map
        Prod.fst
      = [.getChatById (.str "g123"),
         .chatAddParticipants ["5551234@c.us", "a@c.us"]] :=
  c8_normalization.2.2.1 _ _ ["5551234", "a@c.us"] defaultChat rfl rfl rfl

/-- Claim C1: on every route except GET /status and POST /initialize, a
request served while the readiness flag is down gets exactly status 503 with
the not-ready JSON error, unchanged state and an empty library-call trace;
when the flag is up the request goes through to the handler of the route. -/
theorem c1_readiness_guard (s : SState) (cl : Client) (req : Req) (r : Route)
    (hs : r ≠ Route.status) (hi : r ≠ Route.initializeRoute) :
    (s.clientReady = false →
      serve s cl r req = (s, (jerr 503 "WhatsApp client not ready", [])))
    ∧ (s.clientReady = true → serve s cl r req = handlerFor s cl req r) := by
  constructor
  · intro h
    have hm : hasReadyMw r = true := by
      cases r <;> simp_all [hasReadyMw]
    simp [serve, hm, h]
  · intro h
    simp [serve, h]

/-- Concrete instantiation of claim C1: GET /chats while not ready. -/
theorem c1_readiness_guard_witness :
    serve ⟨false, 1, 1⟩ defaultClient Route.chats reqEmpty
      = (⟨false, 1, 1⟩, (jerr 503 "WhatsApp client not ready", [])) :=
  (c1_readiness_guard ⟨false, 1, 1⟩ defaultClient reqEmpty Route.chats
    (by decide) (by decide)).1 rfl

/-- Claim C2: the readiness flag is true after an event exactly when that
event is `ready`, or it was already true and the event is none of
`auth_failure` and `disconnected` (so those two clear it and the other
consumed events leave it unchanged); and serving any HTTP request never
changes the flag. -/
theorem c2_flag_lifecycle :
    (∀ (s : SState) (e : WEvent),
      (onEvent s e).clientReady = true ↔
        (e = .ready ∨
          (s.clientReady = true ∧ e ≠ .auth_failure ∧ e ≠ .disconnected)))
    ∧ ∀ (s : SState) (cl : Client) (r : Route) (req : Req),
        (serve s cl r req).1.clientReady = s.clientReady := by
  constructor
  · intro s e
    cases e <;> simp [onEvent]
  · intro s cl r req
    unfold serve
    split
    · rfl
    · cases r <;> simp only [handlerFor] <;> first
        | rfl
        | (split <;> rfl)

/-- Claim C6: with the readiness flag up, POST /initialize answers that the
client is already initialized, leaves the state untouched (in particular no
new client handle is constructed) and performs no library call; and in every
reachable state the handle held by the `client` variable of the facade is the
most recently constructed one — the facade never serves more than that one
handle. -/
theorem c6_single_client :
    (∀ (s : SState) (cl : Client) (req : Req), s.clientReady = true →
      serve s cl Route.initializeRoute req
        = (s, (jok (.obj [("message", .str "Client already initialized")]), [])))
    ∧ ∀ s : SState, Reachable s → s.client = s.constructed := by
  constructor
  · intro s cl req h
    simp [serve, hasReadyMw, handlerFor, h]
  · intro s hs
    induction hs with
    | boot => rfl
    | http s cl r req _ ih =>
        unfold serve
        split
        · exact ih
        · cases r <;> simp only [handlerFor] <;> first
            | exact ih
            | (split
               · exact ih
               · rfl)
    | event s e _ ih => cases e <;> exact ih

/-- Concrete instantiation of claim C6. -/
theorem c6_single_client_witness :
    serve ⟨true, 1, 1⟩ defaultClient Route.initializeRoute reqEmpty
      = (⟨true, 1, 1⟩, (jok (.obj [("message", .str "Client already initialized")]), []))
    ∧ initState.client = initState.constructed :=
  ⟨c6_single_client.1 ⟨true, 1, 1⟩ defaultClient reqEmpty rfl,
   c6_single_client.2 initState Reachable.boot⟩

/-- Claim C3: every handler obeys the try/catch discipline: each
wrapped-library call before the last returned normally (after a call throws,
the handler performs no further library calls), and when the last call threw
the response is exactly status 500 with the thrown message echoed as the
JSON error body. -/
theorem c3_error_discipline (s : SState) (cl : Client) (req : Req) (r : Route) :
    ChainOK (handlerFor s cl req r).2.1 (handlerFor s cl req r).2.2 := by
  cases r with
  | status => trivial
  | initializeRoute => simp only [handlerFor]; split <;> trivial
  | sendMessage => exact (hok_sendMessageH cl req.body).1
  | replyMessage => exact (hok_replyMessageH cl req.body).1
  | setSubject => exact (hok_setSubjectH cl req.body).1
  | setDescription => exact (hok_setDescriptionH cl req.body).1
  | leaveGroup => exact (hok_leaveGroupH cl req.body).1
  | joinGroup => exact (hok_joinGroupH cl req.body).1
  | addMembers => exact (hok_addMembersH cl req.body).1
  | createGroup => exact (hok_createGroupH cl req.body).1
  | groupInfo => exact (hok_groupInfoH cl req.param).1
  | chats => exact (hok_chatsH cl).1
  | info => exact (hok_infoH cl).1
  | sendLocation => exact (hok_sendLocationH cl req.body).1
  | setStatus => exact (hok_setStatusH cl req.body).1
  | mentionUsers => exact (hok_mentionUsersH cl req.body).1
  | mentionGroups => exact (hok_mentionGroupsH cl req.body).1
  | deleteMessage => exact (hok_deleteMessageH cl req.body).1
  | pinChat => exact (hok_pinChatH cl req.body).1
  | archiveChat => exact (hok_archiveChatH cl req.body).1
  | muteChat => exact (hok_muteChatH cl req.body).1
  | sendTyping => exact (hok_sendTypingH cl req.body).1
  | sendRecording => exact (hok_sendRecordingH cl req.body).1
  | clearState => exact (hok_clearStateH cl req.body).1
  | sendButtons => exact (hok_sendButtonsH cl req.body).1
  | sendList => exact (hok_sendListH cl req.body).1
  | sendReaction => exact (hok_sendReactionH cl req.body).1
  | sendPoll => exact (hok_sendPollH cl req.body).1
  | editMessage => exact (hok_editMessageH cl req.body).1
  | updateLabels => exact (hok_updateLabelsH cl req.body).1
  | addLabels => exact (hok_addLabelsH cl req.body).1
  | removeLabels => exact (hok_removeLabelsH cl req.body).1
  | approveRequest => exact (hok_approveRequestH cl req.body).1
  | rejectRequest => exact (hok_rejectRequestH cl req.body).1
  | pinMessage => exact (hok_pinMessageH cl req.body).1
  | unpinMessage => exact (hok_unpinMessageH cl req.body).1
  | deviceCount => exact (hok_deviceCountH cl req.param).1
  | syncHistory => exact (hok_syncHistoryH cl req.body).1
  | statuses => exact (hok_statusesH cl).1
  | sendMedia => exact (hok_sendMediaH cl req.body req.file).1
  | sendVcard => exact (hok_sendVcardH cl req.body).1
  | changeSync => exact (hok_changeSyncH cl req.body).1
  | downloadMedia => exact (hok_downloadMediaH cl req.param).1
  | messageInfo => exact (hok_messageInfoH cl req.param).1
  | quotedMessage => exact (hok_quotedMessageH cl req.param).1
  | jumpToMessage => exact (hok_jumpToMessageH cl req.body).1
  | contacts => exact (hok_contactsH cl).1
  | chatById => exact (hok_chatByIdH cl req.param).1
  | messages => exact (hok_messagesH cl req.param req.queryLimit).1
  | sendPreview => exact (hok_sendPreviewH cl req.body).1

/-- Claim C5 as amended: every request handler validates the presence of
zero to four string/array fields, then performs at most three
wrapped-library calls on the client handle (not exactly one). -/
theorem c5_amended_passthrough (s : SState) (cl : Client) (req : Req) (r : Route) :
    (requiredFields r).length <= 4 ∧ (handlerFor s cl req r).2.2.length <= 3 := by
  constructor
  · cases r <;> simp [requiredFields]
  · cases r with
    | status => simp [handlerFor]
    | initializeRoute => simp only [handlerFor]; split <;> simp
    | sendMessage => exact (hok_sendMessageH cl req.body).2
    | replyMessage => exact (hok_replyMessageH cl req.body).2
    | setSubject => exact (hok_setSubjectH cl req.body).2
    | setDescription => exact (hok_setDescriptionH cl req.body).2
    | leaveGroup => exact (hok_leaveGroupH cl req.body).2
    | joinGroup => exact (hok_joinGroupH cl req.body).2
    | addMembers => exact (hok_addMembersH cl req.body).2
    | createGroup => exact (hok_createGroupH cl req.body).2
    | groupInfo => exact (hok_groupInfoH cl req.param).2
    | chats => exact (hok_chatsH cl).2
    | info => exact (hok_infoH cl).2
    | sendLocation => exact (hok_sendLocationH cl req.body).2
    | setStatus => exact (hok_setStatusH cl req.body).2
    | mentionUsers => exact (hok_mentionUsersH cl req.body).2
    | mentionGroups => exact (hok_mentionGroupsH cl req.body).2
    | deleteMessage => exact (hok_deleteMessageH cl req.body).2
    | pinChat => exact (hok_pinChatH cl req.body).2
    | archiveChat => exact (hok_archiveChatH cl req.body).2
    | muteChat => exact (hok_muteChatH cl req.body).2
    | sendTyping => exact (hok_sendTypingH cl req.body).2
    | sendRecording => exact (hok_sendRecordingH cl req.body).2
    | clearState => exact (hok_clearStateH cl req.body).2
    | sendButtons => exact (hok_sendButtonsH cl req.body).2
    | sendList => exact (hok_sendListH cl req.body).2
    | sendReaction => exact (hok_sendReactionH cl req.body).2
    | sendPoll => exact (hok_sendPollH cl req.body).2
    | editMessage => exact (hok_editMessageH cl req.body).2
    | updateLabels => exact (hok_updateLabelsH cl req.body).2
    | addLabels => exact (hok_addLabelsH cl req.body).2
    | removeLabels => exact (hok_removeLabelsH cl req.body).2
    | approveRequest => exact (hok_approveRequestH cl req.body).2
    | rejectRequest => exact (hok_rejectRequestH cl req.body).2
    | pinMessage => exact (hok_pinMessageH cl req.body).2
    | unpinMessage => exact (hok_unpinMessageH cl req.body).2
    | deviceCount => exact (hok_deviceCountH cl req.param).2
    | syncHistory => exact (hok_syncHistoryH cl req.body).2
    | statuses => exact (hok_statusesH cl).2
    | sendMedia => exact (hok_sendMediaH cl req.body req.file).2
    | sendVcard => exact (hok_sendVcardH cl req.body).2
    | changeSync => exact (hok_changeSyncH cl req.body).2
    | downloadMedia => exact (hok_downloadMediaH cl req.param).2
    | messageInfo => exact (hok_messageInfoH cl req.param).2
    | quotedMessage => exact (hok_quotedMessageH cl req.param).2
    | jumpToMessage => exact (hok_jumpToMessageH cl req.body).2
    | contacts => exact (hok_contactsH cl).2
    | chatById => exact (hok_chatByIdH cl req.param).2
    | messages => exact (hok_messagesH cl req.param req.queryLimit).2
    | sendPreview => exact (hok_sendPreviewH cl req.body).2

/-- A chat with one existing label whose label-changing calls succeed. -/
def labelsChat : Chat :=
  { defaultChat with getLabels := .ok [⟨.num 1⟩], changeLabels := fun _ => .ok () }

/-- A client resolving every chat id to `labelsChat`. -/
def labelsClient : Client :=
  { defaultClient with getChatById := fun _ => .ok labelsChat }

/-- A valid POST /add-labels body. -/
def addLabelsBody : Body :=
  [("chatId", .str "c@c.us"), ("newLabelIds", .arr [.num 2])]

/-- Counterexample to claim C5 as stated: on a valid request, the
POST /add-labels handler performs three wrapped-library calls
(getChatById, getLabels, changeLabels), not exactly one. -/
theorem c5_counterexample :
    (addLabelsH labelsClient addLabelsBody).2.map Prod.fst
      = [.getChatById (.str "c@c.us"), .chatGetLabels,
         .chatChangeLabels [.num 1, .num 2]]
    ∧ (addLabelsH labelsClient addLabelsBody).2.length = 3
    ∧ (addLabelsH labelsClient addLabelsBody).2.length ≠ 1 := by
  refine ⟨rfl, rfl, by decide⟩

/-- Claim C4: on every POST endpoint with required body fields, a request
missing a required field (absent, otherwise falsy, or not an array where an
array is required) is answered by the handler with status 400 and the JSON
error naming the required fields of the endpoint, and no wrapped-library call is
performed. -/
theorem c4_required_field_validation (s : SState) (cl : Client) (req : Req) (r : Route)
    (h : someRequiredMissing r req.body = true) :
    (handlerFor s cl req r).2 = (jerr 400 (requiredMsg r), []) := by
  cases r with
  | status =>
      simp [someRequiredMissing, requiredFields] at h
  | initializeRoute =>
      simp [someRequiredMissing, requiredFields] at h
  | groupInfo =>
      simp [someRequiredMissing, requiredFields] at h
  | chats =>
      simp [someRequiredMissing, requiredFields] at h
  | info =>
      simp [someRequiredMissing, requiredFields] at h
  | deviceCount =>
      simp [someRequiredMissing, requiredFields] at h
  | statuses =>
      simp [someRequiredMissing, requiredFields] at h
  | changeSync =>
      simp [someRequiredMissing, requiredFields] at h
  | downloadMedia =>
      simp [someRequiredMissing, requiredFields] at h
  | messageInfo =>
      simp [someRequiredMissing, requiredFields] at h
  | quotedMessage =>
      simp [someRequiredMissing, requiredFields] at h
  | contacts =>
      simp [someRequiredMissing, requiredFields] at h
  | chatById =>
      simp [someRequiredMissing, requiredFields] at h
  | messages =>
      simp [someRequiredMissing, requiredFields] at h
  | sendMessage =>
      simp only [handlerFor, sendMessageH]
      revert h
      cases h1 : truthy (bget req.body "to") <;>
        cases h2 : truthy (bget req.body "message") <;>
        simp [someRequiredMissing, requiredFields, fieldPresent, requiredMsg, h1, h2]
  | replyMessage =>
      simp only [handlerFor, replyMessageH]
      revert h
      cases h1 : truthy (bget req.body "messageId") <;>
        cases h2 : truthy (bget req.body "reply") <;>
        simp [someRequiredMissing, requiredFields, fieldPresent, requiredMsg, h1, h2]
  | setSubject =>
      simp only [handlerFor, setSubjectH]
      revert h
      cases h1 : truthy (bget req.body "chatId") <;>
        cases h2 : truthy (bget req.body "subject") <;>
        simp [someRequiredMissing, requiredFields, fieldPresent, requiredMsg, h1, h2]
  | setDescription =>
      simp only [handlerFor, setDescriptionH]
      revert h
      cases h1 : truthy (bget req.body "chatId") <;>
        cases h2 : truthy (bget req.body "description") <;>
        simp [someRequiredMissing, requiredFields, fieldPresent, requiredMsg, h1, h2]
  | leaveGroup =>
      simp only [handlerFor, leaveGroupH]
      revert h
      cases h1 : truthy (bget req.body "chatId") <;>
        simp [someRequiredMissing, requiredFields, fieldPresent, requiredMsg, h1]
  | joinGroup =>
      simp only [handlerFor, joinGroupH]
      revert h
      cases h1 : truthy (bget req.body "inviteCode") <;>
        simp [someRequiredMissing, requiredFields, fieldPresent, requiredMsg, h1]
  | addMembers =>
      simp only [handlerFor, addMembersH]
      revert h
      cases h1 : truthy (bget req.body "chatId") <;>
        cases h2 : truthy (bget req.body "participants") <;>
        cases h3 : isArr (bget req.body "participants") <;>
        simp [someRequiredMissing, requiredFields, fieldPresent, requiredMsg, h1, h2, h3]
  | createGroup =>
      simp only [handlerFor, createGroupH]
      revert h
      cases h1 : truthy (bget req.body "title") <;>
        cases h2 : truthy (bget req.body "participants") <;>
        cases h3 : isArr (bget req.body "participants") <;>
        simp [someRequiredMissing, requiredFields, fieldPresent, requiredMsg, h1, h2, h3]
  | sendLocation =>
      simp only [handlerFor, sendLocationH]
      revert h
      cases h1 : truthy (bget req.body "to") <;>
        cases h2 : truthy (bget req.body "latitude") <;>
        cases h3 : truthy (bget req.body "longitude") <;>
        simp [someRequiredMissing, requiredFields, fieldPresent, requiredMsg, h1, h2, h3]
  | setStatus =>
      simp only [handlerFor, setStatusH]
      revert h
      cases h1 : truthy (bget req.body "status") <;>
        simp [someRequiredMissing, requiredFields, fieldPresent, requiredMsg, h1]
  | mentionUsers =>
      simp only [handlerFor, mentionUsersH]
      revert h
      cases h1 : truthy (bget req.body "chatId") <;>
        cases h2 : truthy (bget req.body "message") <;>
        cases h3 : truthy (bget req.body "mentions") <;>
        cases h4 : isArr (bget req.body "mentions") <;>
        simp [someRequiredMissing, requiredFields, fieldPresent, requiredMsg, h1, h2, h3, h4]
  | mentionGroups =>
      simp only [handlerFor, mentionGroupsH]
      revert h
      cases h1 : truthy (bget req.body "chatId") <;>
        cases h2 : truthy (bget req.body "message") <;>
        cases h3 : truthy (bget req.body "groupMentions") <;>
        simp [someRequiredMissing, requiredFields, fieldPresent, requiredMsg, h1, h2, h3]
  | deleteMessage =>
      simp only [handlerFor, deleteMessageH]
      revert h
      cases h1 : truthy (bget req.body "messageId") <;>
        simp [someRequiredMissing, requiredFields, fieldPresent, requiredMsg, h1]
  | pinChat =>
      simp only [handlerFor, pinChatH]
      revert h
      cases h1 : truthy (bget req.body "chatId") <;>
        simp [someRequiredMissing, requiredFields, fieldPresent, requiredMsg, h1]
  | archiveChat =>
      simp only [handlerFor, archiveChatH]
      revert h
      cases h1 : truthy (bget req.body "chatId") <;>
        simp [someRequiredMissing, requiredFields, fieldPresent, requiredMsg, h1]
  | muteChat =>
      simp only [handlerFor, muteChatH]
      revert h
      cases h1 : truthy (bget req.body "chatId") <;>
        simp [someRequiredMissing, requiredFields, fieldPresent, requiredMsg, h1]
  | sendTyping =>
      simp only [handlerFor, sendTypingH]
      revert h
      cases h1 : truthy (bget req.body "chatId") <;>
        simp [someRequiredMissing, requiredFields, fieldPresent, requiredMsg, h1]
  | sendRecording =>
      simp only [handlerFor, sendRecordingH]
      revert h
      cases h1 : truthy (bget req.body "chatId") <;>
        simp [someRequiredMissing, requiredFields, fieldPresent, requiredMsg, h1]
  | clearState =>
      simp only [handlerFor, clearStateH]
      revert h
      cases h1 : truthy (bget req.body "chatId") <;>
        simp [someRequiredMissing, requiredFields, fieldPresent, requiredMsg, h1]
  | sendButtons =>
      simp only [handlerFor, sendButtonsH]
      revert h
      cases h1 : truthy (bget req.body "to") <;>
        cases h2 : truthy (bget req.body "body") <;>
        cases h3 : truthy (bget req.body "buttons") <;>
        cases h4 : isArr (bget req.body "buttons") <;>
        simp [someRequiredMissing, requiredFields, fieldPresent, requiredMsg, h1, h2, h3, h4]
  | sendList =>
      simp only [handlerFor, sendListH]
      revert h
      cases h1 : truthy (bget req.body "to") <;>
        cases h2 : truthy (bget req.body "body") <;>
        cases h3 : truthy (bget req.body "buttonText") <;>
        cases h4 : truthy (bget req.body "sections") <;>
        cases h5 : isArr (bget req.body "sections") <;>
        simp [someRequiredMissing, requiredFields, fieldPresent, requiredMsg, h1, h2, h3, h4, h5]
  | sendReaction =>
      simp only [handlerFor, sendReactionH]
      revert h
      cases h1 : truthy (bget req.body "messageId") <;>
        cases h2 : truthy (bget req.body "reaction") <;>
        simp [someRequiredMissing, requiredFields, fieldPresent, requiredMsg, h1, h2]
  | sendPoll =>
      simp only [handlerFor, sendPollH]
      revert h
      cases h1 : truthy (bget req.body "to") <;>
        cases h2 : truthy (bget req.body "question") <;>
        cases h3 : truthy (bget req.body "options") <;>
        cases h4 : isArr (bget req.body "options") <;>
        simp [someRequiredMissing, requiredFields, fieldPresent, requiredMsg, h1, h2, h3, h4]
  | editMessage =>
      simp only [handlerFor, editMessageH]
      revert h
      cases h1 : truthy (bget req.body "messageId") <;>
        cases h2 : truthy (bget req.body "newText") <;>
        simp [someRequiredMissing, requiredFields, fieldPresent, requiredMsg, h1, h2]
  | updateLabels =>
      simp only [handlerFor, updateLabelsH]
      revert h
      cases h1 : truthy (bget req.body "chatId") <;>
        cases h2 : truthy (bget req.body "labelIds") <;>
        cases h3 : isArr (bget req.body "labelIds") <;>
        simp [someRequiredMissing, requiredFields, fieldPresent, requiredMsg, h1, h2, h3]
  | addLabels =>
      simp only [handlerFor, addLabelsH]
      revert h
      cases h1 : truthy (bget req.body "chatId") <;>
        cases h2 : truthy (bget req.body "newLabelIds") <;>
        cases h3 : isArr (bget req.body "newLabelIds") <;>
        simp [someRequiredMissing, requiredFields, fieldPresent, requiredMsg, h1, h2, h3]
  | removeLabels =>
      simp only [handlerFor, removeLabelsH]
      revert h
      cases h1 : truthy (bget req.body "chatId") <;>
        simp [someRequiredMissing, requiredFields, fieldPresent, requiredMsg, h1]
  | approveRequest =>
      simp only [handlerFor, approveRequestH]
      revert h
      cases h1 : truthy (bget req.body "chatId") <;>
        simp [someRequiredMissing, requiredFields, fieldPresent, requiredMsg, h1]
  | rejectRequest =>
      simp only [handlerFor, rejectRequestH]
      revert h
      cases h1 : truthy (bget req.body "chatId") <;>
        simp [someRequiredMissing, requiredFields, fieldPresent, requiredMsg, h1]
  | pinMessage =>
      simp only [handlerFor, pinMessageH]
      revert h
      cases h1 : truthy (bget req.body "messageId") <;>
        simp [someRequiredMissing, requiredFields, fieldPresent, requiredMsg, h1]
  | unpinMessage =>
      simp only [handlerFor, unpinMessageH]
      revert h
      cases h1 : truthy (bget req.body "messageId") <;>
        simp [someRequiredMissing, requiredFields, fieldPresent, requiredMsg, h1]
  | syncHistory =>
      simp only [handlerFor, syncHistoryH]
      revert h
      cases h1 : truthy (bget req.body "chatId") <;>
        simp [someRequiredMissing, requiredFields, fieldPresent, requiredMsg, h1]
  | sendVcard =>
      simp only [handlerFor, sendVcardH]
      revert h
      cases h1 : truthy (bget req.body "to") <;>
        cases h2 : truthy (bget req.body "vCard") <;>
        simp [someRequiredMissing, requiredFields, fieldPresent, requiredMsg, h1, h2]
  | jumpToMessage =>
      simp only [handlerFor, jumpToMessageH]
      revert h
      cases h1 : truthy (bget req.body "messageId") <;>
        simp [someRequiredMissing, requiredFields, fieldPresent, requiredMsg, h1]
  | sendPreview =>
      simp only [handlerFor, sendPreviewH]
      revert h
      cases h1 : truthy (bget req.body "to") <;>
        cases h2 : truthy (bget req.body "text") <;>
        simp [someRequiredMissing, requiredFields, fieldPresent, requiredMsg, h1, h2]
  | sendMedia =>
      simp only [handlerFor, sendMediaH]
      revert h
      cases req.file <;>
        cases h1 : truthy (bget req.body "to") <;>
          simp [someRequiredMissing, requiredFields, fieldPresent, requiredMsg, h1]

/-- Concrete instantiation of claim C4: POST /send-message with an empty
body. -/
theorem c4_required_field_validation_witness :
    someRequiredMissing Route.sendMessage reqEmpty.body = true
    ∧ (handlerFor initState defaultClient reqEmpty Route.sendMessage).2
        = (jerr 400 "to and message are required", []) :=
  ⟨rfl, c4_required_field_validation initState defaultClient reqEmpty Route.sendMessage rfl⟩

/-- Modelled on the words of claim C7: the GET /chats response body is a
count equal to the length of the returned chat list, plus the chats in the
same order, each serialized as exactly the five fields id (from
`id._serialized`), name, isGroup, unreadCount and timestamp, copied
unmodified. -/
def chatsRespSpec (chats : List Chat) : JVal :=
  .obj [("count", .num chats.length),
        ("chats", .arr (chats.map (fun chat =>
          .obj [("id", .str chat.idSerialized), ("name", chat.name),
                ("isGroup", .bool chat.isGroup), ("unreadCount", chat.unreadCount),
                ("timestamp", chat.timestamp)])))]

/-- Claim C7: whenever the library returns a chat list, GET /chats answers
200 with exactly the serialization the claim describes and performs the
single getChats call. -/
theorem c7_chats_serialization (cl : Client) (chats : List Chat)
    (h : cl.getChats = .ok chats) :
    chatsH cl = (jok (chatsRespSpec chats), [(.getChats, none)]) := by
  simp only [chatsH, h]
  rfl

/-- A plain direct chat with concrete field values. -/
def chatA : Chat :=
  { defaultChat with idSerialized := "alice@c.us", name := .str "Alice",
                     unreadCount := .num 2, timestamp := .num 1111 }

/-- A group chat with concrete field values. -/
def chatB : Chat :=
  { defaultChat with idSerialized := "team@g.us", name := .str "Team", isGroup := true,
                     unreadCount := .num 0, timestamp := .num 2222 }

/-- A client whose getChats returns the two concrete chats. -/
def chatsClient : Client :=
  { defaultClient with getChats := .ok [chatA, chatB] }

/-- Concrete instantiation of claim C7. -/
theorem c7_chats_serialization_witness :
    chatsH chatsClient
      = (jok (.obj [("count", .num 2),
                    ("chats", .arr
                      [.obj [("id", .str "alice@c.us"), ("name", .str "Alice"),
                             ("isGroup", .bool false), ("unreadCount", .num 2),
                             ("timestamp", .num 1111)],
                       .obj [("id", .str "team@g.us"), ("name", .str "Team"),
                             ("isGroup", .bool true), ("unreadCount", .num 0),
                             ("timestamp", .num 2222)]])]),
         [(.getChats, none)]) :=
  c7_chats_serialization chatsClient [chatA, chatB] rfl

/-- Claim C9: when the chat resolved by getChatById is not a group, the
set-subject, set-description, leave-group and group-info handlers answer 400
with the group-only JSON error, and the trace holds exactly the getChatById
lookup — no mutating library method is called on that path. -/
theorem c9_group_only_guard :
    (∀ (cl : Client) (b : Body) (chat : Chat),
      truthy (bget b "chatId") = true → truthy (bget b "subject") = true →
      cl.getChatById (bget b "chatId") = .ok chat → chat.isGroup = false →
      setSubjectH cl b
        = (jerr 400 "This can only be used in a group",
           [(.getChatById (bget b "chatId"), none)]))
    ∧ (∀ (cl : Client) (b : Body) (chat : Chat),
      truthy (bget b "chatId") = true → truthy (bget b "description") = true →
      cl.getChatById (bget b "chatId") = .ok chat → chat.isGroup = false →
      setDescriptionH cl b
        = (jerr 400 "This can only be used in a group",
           [(.getChatById (bget b "chatId"), none)]))
    ∧ (∀ (cl : Client) (b : Body) (chat : Chat),
      truthy (bget b "chatId") = true →
      cl.getChatById (bget b "chatId") = .ok chat → chat.isGroup = false →
      leaveGroupH cl b
        = (jerr 400 "This can only be used in a group",
           [(.getChatById (bget b "chatId"), none)]))
    ∧ (∀ (cl : Client) (p : String) (chat : Chat),
      cl.getChatById (.str p) = .ok chat → chat.isGroup = false →
      groupInfoH cl p
        = (jerr 400 "This can only be used in a group",
           [(.getChatById (.str p), none)])) := by
  refine ⟨fun cl b chat h1 h2 hok hg => ?_, fun cl b chat h1 h2 hok hg => ?_,
          fun cl b chat h1 hok hg => ?_, fun cl p chat hok hg => ?_⟩
  · simp [setSubjectH, h1, h2, hok, hg]
  · simp [setDescriptionH, h1, h2, hok, hg]
  · simp [leaveGroupH, h1, hok, hg]
  · simp [groupInfoH, hok, hg]

/-- A client resolving every chat id to the non-group `defaultChat`. -/
def nonGroupClient : Client :=
  { defaultClient with getChatById := fun _ => .ok defaultChat }

/-- Concrete instantiation of claim C9: set-subject and group-info on a
non-group chat. -/
theorem c9_group_only_guard_witness :
    setSubjectH nonGroupClient [("chatId", .str "x@c.us"), ("subject", .str "new subject")]
      = (jerr 400 "This can only be used in a group", [(.getChatById (.str "x@c.us"), none)])
    ∧ groupInfoH nonGroupClient "x@c.us"
      = (jerr 400 "This can only be used in a group", [(.getChatById (.str "x@c.us"), none)]) :=
  ⟨c9_group_only_guard.1 nonGroupClient _ defaultChat rfl rfl rfl rfl,
   c9_group_only_guard.2.2.2 nonGroupClient "x@c.us" defaultChat rfl rfl⟩

/-- Claim C10: when the message resolved by getMessageById is not the user
own one (`fromMe` false), delete-message and edit-message answer 400 with their
own-message JSON error and never call the delete/edit method (the trace is
exactly the lookup); and when `forEveryone` is absent from the body,
delete-message passes `true` to the delete call. -/
theorem c10_own_message_guard :
    (∀ (cl : Client) (b : Body) (msg : Msg),
      truthy (bget b "messageId") = true →
      cl.getMessageById (bget b "messageId") = .ok msg → msg.fromMe = false →
      deleteMessageH cl b
        = (jerr 400 "Can only delete own messages",
           [(.getMessageById (bget b "messageId"), none)]))
    ∧ (∀ (cl : Client) (b : Body) (msg : Msg),
      truthy (bget b "messageId") = true → truthy (bget b "newText") = true →
      cl.getMessageById (bget b "messageId") = .ok msg → msg.fromMe = false →
      editMessageH cl b
        = (jerr 400 "Can only edit own messages",
           [(.getMessageById (bget b "messageId"), none)]))
    ∧ (∀ (cl : Client) (b : Body) (msg : Msg),
      truthy (bget b "messageId") = true →
      bget b "forEveryone" = .undefined →
      cl.getMessageById (bget b "messageId") = .ok msg → msg.fromMe = true →
      (deleteMessageH cl b).2.map Prod.fst
        = [.getMessageById (bget b "messageId"), .msgDelete (.bool true)]) := by
  refine ⟨fun cl b msg h1 hok hf => ?_, fun cl b msg h1 h2 hok hf => ?_,
          fun cl b msg h1 hu hok hf => ?_⟩
  · simp [deleteMessageH, h1, hok, hf]
  · simp [editMessageH, h1, h2, hok, hf]
  · simp only [deleteMessageH, bgetD, h1, hu, hok, hf]
    simp only [Bool.not_true, Bool.not_false]
    cases msg.delete (.bool true) <;> simp

/-- A message owned by the user whose delete call succeeds. -/
def msgMine : Msg :=
  { defaultMsg with fromMe := true, delete := fun _ => .ok () }

/-- A client resolving every message id to the foreign `defaultMsg`. -/
def notMineClient : Client :=
  { defaultClient with getMessageById := fun _ => .ok defaultMsg }

/-- A client resolving every message id to the user-owned `msgMine`. -/
def mineClient : Client :=
  { defaultClient with getMessageById := fun _ => .ok msgMine }

/-- Concrete instantiation of claim C10: deleting a foreign message is
refused after the lookup only, and deleting an own message without a
`forEveryone` field passes `true`. -/
theorem c10_own_message_guard_witness :
    deleteMessageH notMineClient [("messageId", .str "m1")]
      = (jerr 400 "Can only delete own messages", [(.getMessageById (.str "m1"), none)])
    ∧ (deleteMessageH mineClient [("messageId", .str "m1")]).2.map Prod.fst
      = [.getMessageById (.str "m1"), .msgDelete (.bool true)] :=
  ⟨c10_own_message_guard.1 notMineClient _ defaultMsg rfl rfl rfl,
   c10_own_message_guard.2.2 mineClient _ msgMine rfl rfl rfl rfl⟩

end Server
